import Mathlib

/-!
# Development_Engine: the blank-window demo and the triangle demo

A shallow embedding of `src/main.cpp` and `src/demos/triangle.cpp`.

Both programs are straight-line sequences of calls into SFML and OpenGL
followed by one frame loop.  The embedding keeps the order of the calls:
every call the program issues is appended to `World.calls`, text written to
`std::cerr` / `std::cout` is appended to `World.cerr` / `World.cout`, and the
answers of the libraries (does loading succeed, which handle is returned,
what is the compile status, which events are pending) are inputs, collected
in `Env` and `FrameInput`.
-/

namespace Engine

/-! ## Constants declared by the included headers -/

/-- Registry value of `GL_FALSE` (declared in `glad/gl.h`). -/
def GL_FALSE : Nat := 0
/-- Registry value of `GL_TRIANGLES` (declared in `glad/gl.h`). -/
def GL_TRIANGLES : Nat := 0x0004
/-- Registry value of `GL_DEPTH_BUFFER_BIT` (declared in `glad/gl.h`). -/
def GL_DEPTH_BUFFER_BIT : Nat := 0x0100
/-- Registry value of `GL_COLOR_BUFFER_BIT` (declared in `glad/gl.h`). -/
def GL_COLOR_BUFFER_BIT : Nat := 0x4000
/-- Registry value of `GL_DEPTH_TEST` (declared in `glad/gl.h`). -/
def GL_DEPTH_TEST : Nat := 0x0B71
/-- Registry value of `GL_FLOAT` (declared in `glad/gl.h`). -/
def GL_FLOAT : Nat := 0x1406
/-- Registry value of `GL_VENDOR` (declared in `glad/gl.h`). -/
def GL_VENDOR : Nat := 0x1F00
/-- Registry value of `GL_RENDERER` (declared in `glad/gl.h`). -/
def GL_RENDERER : Nat := 0x1F01
/-- Registry value of `GL_VERSION` (declared in `glad/gl.h`). -/
def GL_VERSION : Nat := 0x1F02
/-- Registry value of `GL_ARRAY_BUFFER` (declared in `glad/gl.h`). -/
def GL_ARRAY_BUFFER : Nat := 0x8892
/-- Registry value of `GL_STATIC_DRAW` (declared in `glad/gl.h`). -/
def GL_STATIC_DRAW : Nat := 0x88E4
/-- Registry value of `GL_FRAGMENT_SHADER` (declared in `glad/gl.h`). -/
def GL_FRAGMENT_SHADER : Nat := 0x8B30
/-- Registry value of `GL_VERTEX_SHADER` (declared in `glad/gl.h`). -/
def GL_VERTEX_SHADER : Nat := 0x8B31
/-- Registry value of `GL_COMPILE_STATUS` (declared in `glad/gl.h`). -/
def GL_COMPILE_STATUS : Nat := 0x8B81
/-- Registry value of `GL_LINK_STATUS` (declared in `glad/gl.h`). -/
def GL_LINK_STATUS : Nat := 0x8B82
/-- Registry value of `GL_INFO_LOG_LENGTH` (declared in `glad/gl.h`). -/
def GL_INFO_LOG_LENGTH : Nat := 0x8B84
/-- Registry value of `GL_DEBUG_OUTPUT_SYNCHRONOUS` (declared in `glad/gl.h`). -/
def GL_DEBUG_OUTPUT_SYNCHRONOUS : Nat := 0x8242
/-- Registry value of `GL_DEBUG_SEVERITY_NOTIFICATION` (declared in `glad/gl.h`). -/
def GL_DEBUG_SEVERITY_NOTIFICATION : Nat := 0x826B
/-- Registry value of `GL_DEBUG_OUTPUT` (declared in `glad/gl.h`). -/
def GL_DEBUG_OUTPUT : Nat := 0x92E0

/-- Value of `sf::Keyboard::Key::Escape` (declared in `SFML/Window/Keyboard.hpp`). -/
def Key.Escape : Int := 36

/-- Size of a `float` in bytes, `sizeof(float)`. -/
def sizeofFloat : Nat := 4

/-! ## Data -/

/-- A decimal `float` literal of the source, `digits / 10 ^ scale`
(`0.08f` is `⟨8, 2⟩`).  The programs only pass these values on. -/
structure FloatLit where
  digits : Int
  scale : Nat
  deriving DecidableEq, Repr

/-- The events `sf::Window::pollEvent` can hand out.  Only `Closed`,
`Resized` (with its `size`) and `KeyPressed` (with its `code`) are inspected
by the programs; every other alternative of `sf::Event` is `other`. -/
inductive Event where
  | closed
  | resized (x y : Nat)
  | keyPressed (code : Int)
  | other (kind : Nat)
  deriving DecidableEq, Repr

/-- The test `ev->is<sf::Event::Closed>()`. -/
def Event.isClosed : Event → Bool
  | .closed => true
  | _ => false

/-- The test `ev->is<sf::Event::KeyPressed>()`. -/
def Event.isKeyPressed : Event → Bool
  | .keyPressed _ => true
  | _ => false

/-- The access `ev->getIf<sf::Event::Resized>()`, giving `rs->size`. -/
def Event.getIfResized : Event → Option (Nat × Nat)
  | .resized x y => some (x, y)
  | _ => none

/-- The access `ev->getIf<sf::Event::KeyPressed>()`, giving `kp->code`. -/
def Event.getIfKeyPressed : Event → Option Int
  | .keyPressed code => some code
  | _ => none

/-- The calls into OpenGL (and the present call `window.display()`) that the
two programs issue, with the arguments they pass.  For the calls that create
an object the handle the driver answers with is recorded as `ret`.  The
`float` handed to `glUniform1f` is given by its value, a rational. -/
inductive GLCall where
  | getString (name : Nat)
  | enable (cap : Nat)
  | debugMessageCallback
  | createShader (type : Nat) (ret : Nat)
  | shaderSource (sh : Nat) (src : String)
  | compileShader (sh : Nat)
  | getShaderiv (sh pname : Nat)
  | getShaderInfoLog (sh : Nat) (bufSize : Nat)
  | deleteShader (sh : Nat)
  | createProgram (ret : Nat)
  | attachShader (prog sh : Nat)
  | linkProgram (prog : Nat)
  | getProgramiv (prog pname : Nat)
  | getProgramInfoLog (prog : Nat) (bufSize : Nat)
  | deleteProgram (prog : Nat)
  | getUniformLocation (prog : Nat) (name : String)
  | genVertexArrays (n : Nat) (ret : Nat)
  | genBuffers (n : Nat) (ret : Nat)
  | bindVertexArray (vao : Nat)
  | bindBuffer (target buf : Nat)
  | bufferData (target size : Nat) (data : List FloatLit) (usage : Nat)
  | vertexAttribPointer (index size type normalized stride offset : Nat)
  | enableVertexAttribArray (index : Nat)
  | viewport (x y width height : Int)
  | clearColor (r g b a : FloatLit)
  | clear (mask : Nat)
  | useProgram (prog : Nat)
  | uniform1f (location : Int) (value : ℚ)
  | drawArrays (mode : Nat) (first count : Int)
  | deleteVertexArrays (n : Nat) (vao : Nat)
  | deleteBuffers (n : Nat) (vbo : Nat)
  | display
  deriving DecidableEq, Repr

/-- What the driver answers for one shader or program object: the handle
returned by `glCreateShader` / `glCreateProgram`, the status read back with
`GL_COMPILE_STATUS` / `GL_LINK_STATUS`, and `log`, the contents of the
`std::string log` after `glGetShaderInfoLog` / `glGetProgramInfoLog` has
filled it: all its `GL_INFO_LOG_LENGTH` characters, whatever the driver has
stored in them. -/
structure ObjectResult where
  handle : Nat
  ok : Bool
  log : String
  deriving DecidableEq, Repr

/-- The answers of the libraries during one run of a program. -/
structure Env where
  /-- Result of `gladLoadGL`. -/
  loadOk : Bool
  /-- Results of `glGetString`. -/
  vendor : String
  renderer : String
  version : String
  /-- Driver answers for the vertex shader, the fragment shader, the program. -/
  vs : ObjectResult
  fs : ObjectResult
  prog : ObjectResult
  /-- Result of `glGetUniformLocation(prog, "uTime")`. -/
  uTimeLoc : Int
  /-- Names written by `glGenVertexArrays` and `glGenBuffers`. -/
  vao : Nat
  vbo : Nat
  /-- Reading of `steady_clock::now()` taken before the loop, in clock ticks. -/
  startTime : Int
  /-- The number of ticks `steady_clock` counts per second: its period is
  `std::ratio<1, ticksPerSecond>` (`std::nano`, that is `10^9`, in libstdc++,
  libc++ and the MSVC library). -/
  ticksPerSecond : Nat
  /-- Whether `pollEvent` still hands out queued events once the window has
  been closed.  SFML 3 answers no event on a closed window; the results below
  hold for either behaviour. -/
  pollAfterClose : Bool
  deriving Repr

/-- What the surroundings supply in one iteration of the frame loop: the
events pending when the iteration polls, and the reading of
`steady_clock::now()` taken in that iteration (in clock ticks). -/
structure FrameInput where
  events : List Event
  now : Int
  deriving DecidableEq, Repr

/-- The observable state of a run: calls issued so far (oldest first), the
text written to the two streams, and the `sf::Window` (open or closed, and
the size `getSize()` reports). -/
structure World where
  calls : List GLCall
  cerr : String
  cout : String
  windowOpen : Bool
  windowSize : Nat × Nat
  deriving DecidableEq, Repr

/-- Issue one call. -/
def World.gl (w : World) (c : GLCall) : World :=
  { w with calls := w.calls ++ [c] }

/-- The call `window.close()`. -/
def World.close (w : World) : World :=
  { w with windowOpen := false }

/-- Write to `std::cerr`. -/
def World.err (w : World) (s : String) : World :=
  { w with cerr := w.cerr ++ s }

/-- Write to `std::cout`. -/
def World.out (w : World) (s : String) : World :=
  { w with cout := w.cout ++ s }

/-- The window when it is handed an event by `pollEvent`: SFML records the
new size of a `Resized` event, which `getSize()` reports from then on. -/
def World.deliver (w : World) (ev : Event) : World :=
  match ev.getIfResized with
  | some sz => { w with windowSize := sz }
  | none => w

/-- The state after `sf::Window window(sf::VideoMode({1280u, 720u}), ...)`:
an open window of the requested size, nothing issued or written yet. -/
def World.start : World :=
  { calls := [], cerr := "", cout := "", windowOpen := true, windowSize := (1280, 720) }

/-- The conversion `static_cast<GLsizei>(u)` of an `unsigned int` to the signed
32-bit `GLsizei`: values from `2^31` on wrap around to negative ones. -/
def toGLsizei (u : Nat) : Int :=
  if u % 2 ^ 32 < 2 ^ 31 then ((u % 2 ^ 32 : Nat) : Int) else ((u % 2 ^ 32 : Nat) : Int) - 2 ^ 32

/-! ## The 32-bit `float` -/

/-- The integer nearest to `x`, the even one of the two when `x` lies halfway. -/
def roundHalfEven (x : ℚ) : ℤ :=
  if x - ⌊x⌋ < 1 / 2 then ⌊x⌋
  else if 1 / 2 < x - ⌊x⌋ then ⌊x⌋ + 1
  else if ⌊x⌋ % 2 = 0 then ⌊x⌋ else ⌊x⌋ + 1

/-- The value of the 32-bit `float` nearest to `q` (24 significant bits, ties
to even): `q` is scaled by a power of two into `[2^23, 2^24)`, rounded to an
integer and scaled back.  The exponent is not limited; the values met here,
quotients of 64-bit tick counts, are within the normal range of `float`. -/
def roundFloat32 (q : ℚ) : ℚ :=
  if q = 0 then 0
  else (roundHalfEven (q / 2 ^ (Int.log 2 |q| - 23)) : ℚ) * 2 ^ (Int.log 2 |q| - 23)

/-- The value `std::chrono::duration<float>(d).count()` for a `steady_clock`
duration `d` of `ticks` ticks: the conversion to `float` seconds casts the
tick count and the denominator of the period to `float` and divides them as
`float`s. -/
def durationFloatSeconds (ticksPerSecond : Nat) (ticks : Int) : ℚ :=
  roundFloat32 (roundFloat32 ticks / roundFloat32 ticksPerSecond)

/-! ## The loops shared by both programs -/

/-- The inner loop `while (auto ev = window.pollEvent()) { ... }` over the
events pending in this iteration; `onEvent` is the loop body. -/
def pollLoop (env : Env) (onEvent : Event → World → World) : List Event → World → World
  | [], w => w
  | ev :: rest, w =>
    if w.windowOpen || env.pollAfterClose then
      pollLoop env onEvent rest (onEvent ev (w.deliver ev))
    else w

/-- The outer loop `while (window.isOpen()) { ... }`; `body` is one iteration,
fed with the inputs of that iteration.  The result is the state when the loop
is left together with the number of iterations that ran, or `none` when the
inputs are used up while the window is still open (the loop has not ended). -/
def whileOpen (body : FrameInput → World → World) : List FrameInput → World → Option (World × Nat)
  | [], w => if w.windowOpen then none else some (w, 0)
  | f :: fs, w =>
    if w.windowOpen then
      (whileOpen body fs (body f w)).map (fun r => (r.1, r.2 + 1))
    else some (w, 0)

/-! ## `src/demos/triangle.cpp` -/

namespace Triangle

/-- The function `compileShader(type, src)`; `r` is what the driver answers for the
shader object created here.  Returns the handle (or `0`) and the new state. -/
def compileShader (type : Nat) (src : String) (r : ObjectResult) (w : World) : Nat × World :=
  let sh := r.handle
  let w := w.gl (.createShader type sh)
  let w := w.gl (.shaderSource sh src)
  let w := w.gl (.compileShader sh)
  let w := w.gl (.getShaderiv sh GL_COMPILE_STATUS)
  if !r.ok then
    let w := w.gl (.getShaderiv sh GL_INFO_LOG_LENGTH)
    let log := r.log
    let w := w.gl (.getShaderInfoLog sh log.length)
    let w := w.err ("Shader compile failed:\n" ++ log ++ "\n")
    let w := w.gl (.deleteShader sh)
    (0, w)
  else (sh, w)

/-- The function `linkProgram(vs, fs)`; `r` is what the driver answers for the
program object created here. -/
def linkProgram (vs fs : Nat) (r : ObjectResult) (w : World) : Nat × World :=
  let prog := r.handle
  let w := w.gl (.createProgram prog)
  let w := w.gl (.attachShader prog vs)
  let w := w.gl (.attachShader prog fs)
  let w := w.gl (.linkProgram prog)
  let w := w.gl (.getProgramiv prog GL_LINK_STATUS)
  if !r.ok then
    let w := w.gl (.getProgramiv prog GL_INFO_LOG_LENGTH)
    let log := r.log
    let w := w.gl (.getProgramInfoLog prog log.length)
    let w := w.err ("Program link failed:\n" ++ log ++ "\n")
    let w := w.gl (.deleteProgram prog)
    (0, w)
  else (prog, w)

/-- The callback `glDebugCb`; the arguments the source leaves unnamed are `source`,
`type`, `id`, `length` and `userParam`.  The result is `std::cerr` after the
call, given `std::cerr` before it. -/
def glDebugCb (_source _type _id severity : Nat) (_length : Int) (message : String)
    (_userParam : Nat) (cerr : String) : String :=
  if severity = GL_DEBUG_SEVERITY_NOTIFICATION then cerr
  else cerr ++ "GL: " ++ message ++ "\n"

/-- The vertex shader text `vsSrc`. -/
def vsSrc : String :=
  "\n" ++
  "    #version 330 core\n" ++
  "    layout (location = 0) in vec2 aPos;\n" ++
  "    layout (location = 1) in vec3 aColor;\n" ++
  "\n" ++
  "    uniform float uTime;\n" ++
  "\n" ++
  "    out vec3 vColor;\n" ++
  "\n" ++
  "    void main() \x7b\n" ++
  "        float a = uTime;\n" ++
  "        mat2 R = mat2(\n" ++
  "            cos(a), -sin(a),\n" ++
  "            sin(a),  cos(a)\n" ++
  "        );\n" ++
  "\n" ++
  "        vec2 rotated = R * aPos;\n" ++
  "\n" ++
  "        vColor = aColor;\n" ++
  "        gl_Position = vec4(rotated, 0.0, 1.0);\n" ++
  "        \x7d\n" ++
  "    "

/-- The fragment shader text `fsSrc`. -/
def fsSrc : String :=
  "\n" ++
  "        #version 330 core\n" ++
  "        in vec3 vColor;\n" ++
  "        out vec4 FragColor;\n" ++
  "        void main() \x7b\n" ++
  "            FragColor = vec4(vColor, 1.0);\n" ++
  "        \x7d\n" ++
  "    "

/-- The array `float verts[]`: three rows `x, y, r, g, b`. -/
def verts : List FloatLit :=
  [ ⟨0, 1⟩, ⟨6, 1⟩, ⟨10, 1⟩, ⟨2, 1⟩, ⟨2, 1⟩,
    ⟨-6, 1⟩, ⟨-6, 1⟩, ⟨2, 1⟩, ⟨10, 1⟩, ⟨2, 1⟩,
    ⟨6, 1⟩, ⟨-6, 1⟩, ⟨2, 1⟩, ⟨2, 1⟩, ⟨10, 1⟩ ]

/-- The size `sizeof(verts)`, in bytes. -/
def sizeofVerts : Nat := verts.length * sizeofFloat

/-- The body of the inner event loop of `main` (lines 176-189). -/
def onEvent (ev : Event) (w : World) : World :=
  if ev.isClosed then
    w.close
  else
    let w := match ev.getIfResized with
      | some rs => w.gl (.viewport 0 0 (toGLsizei rs.1) (toGLsizei rs.2))
      | none => w
    match ev.getIfKeyPressed with
    | some code => if code = Key.Escape then w.close else w
    | none => w

/-- The commands of one iteration of the frame loop that follow the event
loop (lines 192-206); `time` is the value of `float time` handed to `uTime`. -/
def draw (prog : Nat) (uTimeLoc : Int) (vao : Nat) (time : ℚ) : List GLCall :=
  [ .clearColor ⟨8, 2⟩ ⟨8, 2⟩ ⟨12, 2⟩ ⟨10, 1⟩,
    .clear (GL_COLOR_BUFFER_BIT ||| GL_DEPTH_BUFFER_BIT),
    .useProgram prog,
    .uniform1f uTimeLoc time,
    .bindVertexArray vao,
    .drawArrays GL_TRIANGLES 0 3,
    .bindVertexArray 0,
    .useProgram 0,
    .display ]

/-- One iteration of the frame loop of `main` (lines 175-206).  The value of
`float time` is the difference of the two clock readings, converted to
`float` seconds by `std::chrono::duration<float>`. -/
def frame (env : Env) (prog : Nat) (uTimeLoc : Int) (vao : Nat) (startTime : Int)
    (f : FrameInput) (w : World) : World :=
  let w := pollLoop env onEvent f.events w
  let time := durationFloatSeconds env.ticksPerSecond (f.now - startTime)
  (draw prog uTimeLoc vao time).foldl World.gl w

/-- The function `main` of the triangle demo.  The result is the exit code and the final
state, or `none` when the frame loop has not ended on the given inputs. -/
def main (env : Env) (frames : List FrameInput) : Option (Int × World) :=
  let w := World.start
  if !env.loadOk then
    let w := w.err "Failed to load OpenGL via gladLoadGL(sf::Context::getFunction)\n"
    some (1, w)
  else
    let w := (w.gl (.getString GL_VENDOR)).out ("OpenGL Vendor:   " ++ env.vendor ++ "\n")
    let w := (w.gl (.getString GL_RENDERER)).out ("OpenGL Renderer: " ++ env.renderer ++ "\n")
    let w := (w.gl (.getString GL_VERSION)).out ("OpenGL Version:  " ++ env.version ++ "\n")
    let w := w.gl (.enable GL_DEBUG_OUTPUT)
    let w := w.gl (.enable GL_DEBUG_OUTPUT_SYNCHRONOUS)
    let w := w.gl .debugMessageCallback
    let w := w.gl (.enable GL_DEPTH_TEST)
    let vs := (compileShader GL_VERTEX_SHADER vsSrc env.vs w).1
    let w := (compileShader GL_VERTEX_SHADER vsSrc env.vs w).2
    let fs := (compileShader GL_FRAGMENT_SHADER fsSrc env.fs w).1
    let w := (compileShader GL_FRAGMENT_SHADER fsSrc env.fs w).2
    if vs = 0 || fs = 0 then some (1, w)
    else
      let prog := (linkProgram vs fs env.prog w).1
      let w := (linkProgram vs fs env.prog w).2
      let w := w.gl (.getUniformLocation prog "uTime")
      let uTimeLoc := env.uTimeLoc
      let w := w.gl (.deleteShader vs)
      let w := w.gl (.deleteShader fs)
      if prog = 0 then some (1, w)
      else
        let w := w.gl (.genVertexArrays 1 env.vao)
        let vao := env.vao
        let w := w.gl (.genBuffers 1 env.vbo)
        let vbo := env.vbo
        let w := w.gl (.bindVertexArray vao)
        let w := w.gl (.bindBuffer GL_ARRAY_BUFFER vbo)
        let w := w.gl (.bufferData GL_ARRAY_BUFFER sizeofVerts verts GL_STATIC_DRAW)
        let w := w.gl (.vertexAttribPointer 0 2 GL_FLOAT GL_FALSE (5 * sizeofFloat) 0)
        let w := w.gl (.enableVertexAttribArray 0)
        let w := w.gl (.vertexAttribPointer 1 3 GL_FLOAT GL_FALSE (5 * sizeofFloat)
          (2 * sizeofFloat))
        let w := w.gl (.enableVertexAttribArray 1)
        let w := w.gl (.bindBuffer GL_ARRAY_BUFFER 0)
        let w := w.gl (.bindVertexArray 0)
        let s := w.windowSize
        let w := w.gl (.viewport 0 0 (toGLsizei s.1) (toGLsizei s.2))
        let startTime := env.startTime
        match whileOpen (frame env prog uTimeLoc vao startTime) frames w with
        | none => none
        | some (w, _) =>
          let w := w.gl (.deleteVertexArrays 1 vao)
          let w := w.gl (.deleteBuffers 1 vbo)
          let w := w.gl (.deleteProgram prog)
          some (0, w)

end Triangle

/-! ## `src/main.cpp` -/

namespace Blank

/-- The body of the inner event loop of `main` (lines 36-49). -/
def onEvent (ev : Event) (w : World) : World :=
  if ev.isClosed then
    w.close
  else if ev.isKeyPressed then
    match ev.getIfKeyPressed with
    | some code => if code = Key.Escape then w.close else w
    | none => w
  else w

/-- One iteration of the frame loop of `main` (lines 35-59). -/
def frame (env : Env) (f : FrameInput) (w : World) : World :=
  let w := pollLoop env onEvent f.events w
  let w := w.gl (.viewport 0 0 (toGLsizei w.windowSize.1) (toGLsizei w.windowSize.2))
  let w := w.gl (.clearColor ⟨8, 2⟩ ⟨8, 2⟩ ⟨12, 2⟩ ⟨10, 1⟩)
  let w := w.gl (.clear (GL_COLOR_BUFFER_BIT ||| GL_DEPTH_BUFFER_BIT))
  w.gl .display

/-- The function `main` of the blank-window demo. -/
def main (env : Env) (frames : List FrameInput) : Option (Int × World) :=
  let w := World.start
  if !env.loadOk then
    let w := w.err "Failed to load OpenGL via gladLoadGL(sf::Context::getFunction)\n"
    some (1, w)
  else
    let w := (w.gl (.getString GL_VENDOR)).out ("OpenGL Vendor:   " ++ env.vendor ++ "\n")
    let w := (w.gl (.getString GL_RENDERER)).out ("OpenGL Renderer: " ++ env.renderer ++ "\n")
    let w := (w.gl (.getString GL_VERSION)).out ("OpenGL Version:  " ++ env.version ++ "\n")
    let w := w.gl (.enable GL_DEPTH_TEST)
    match whileOpen (frame env) frames w with
    | none => none
    | some (w, _) => some (0, w)

end Blank

/-! ## Reading a sequence of calls -/

/-- The GPU objects the programs create, by kind and handle. -/
inductive GLObject where
  | shader (h : Nat)
  | program (h : Nat)
  | vertexArray (h : Nat)
  | buffer (h : Nat)
  deriving DecidableEq, Repr

/-- The handle of an object. -/
def GLObject.handle : GLObject → Nat
  | .shader h => h
  | .program h => h
  | .vertexArray h => h
  | .buffer h => h

/-- The object a call creates, if it is a creating call. -/
def GLCall.creates : GLCall → Option GLObject
  | .createShader _ ret => some (.shader ret)
  | .createProgram ret => some (.program ret)
  | .genVertexArrays _ ret => some (.vertexArray ret)
  | .genBuffers _ ret => some (.buffer ret)
  | _ => none

/-- The object a call deletes, if it is a deleting call. -/
def GLCall.deletes : GLCall → Option GLObject
  | .deleteShader sh => some (.shader sh)
  | .deleteProgram prog => some (.program prog)
  | .deleteVertexArrays _ vao => some (.vertexArray vao)
  | .deleteBuffers _ vbo => some (.buffer vbo)
  | _ => none

/-- The bookkeeping of GPU objects along a sequence of calls: `live` are the
objects created and not deleted so far, `stale` collects every deletion of an
object that was not live at that moment (deleted twice, or never created).
The handle `0` names no object: creating it adds nothing and deleting it is
ignored. -/
structure Objects where
  live : List GLObject
  stale : List GLObject
  deriving DecidableEq, Repr

/-- The effect of one call on the bookkeeping. -/
def Objects.step (o : Objects) (c : GLCall) : Objects :=
  match c.creates with
  | some x => if x.handle = 0 then o else { o with live := o.live ++ [x] }
  | none =>
    match c.deletes with
    | some x =>
      if x.handle = 0 then o
      else if x ∈ o.live then { o with live := o.live.erase x }
      else { o with stale := o.stale ++ [x] }
    | none => o

/-- The bookkeeping after a sequence of calls, starting with no object. -/
def objectsAfter (calls : List GLCall) : Objects :=
  calls.foldl Objects.step ⟨[], []⟩

/-- The arguments of one `glVertexAttribPointer` call. -/
structure AttribPointer where
  index : Nat
  size : Nat
  type : Nat
  normalized : Nat
  stride : Nat
  offset : Nat
  deriving DecidableEq, Repr

/-- The bytes `[lo, hi)` of the bound buffer that a float attribute reads for
vertex `i`: `size` floats starting at `offset + i * stride`. -/
def AttribPointer.bytes (a : AttribPointer) (i : Nat) : Nat × Nat :=
  (a.offset + i * a.stride, a.offset + i * a.stride + a.size * sizeofFloat)

/-- The arguments of a call, if it is a `glVertexAttribPointer`. -/
def GLCall.asAttribPointer : GLCall → Option AttribPointer
  | .vertexAttribPointer index size type normalized stride offset =>
    some ⟨index, size, type, normalized, stride, offset⟩
  | _ => none

/-- The target, the size in bytes and the data of a call, if it is a
`glBufferData`. -/
def GLCall.asBufferData : GLCall → Option (Nat × Nat × List FloatLit)
  | .bufferData target size data _ => some (target, size, data)
  | _ => none

/-- The mode, `first` and `count` of a call, if it is a `glDrawArrays`. -/
def GLCall.asDrawArrays : GLCall → Option (Nat × Int × Int)
  | .drawArrays mode first count => some (mode, first, count)
  | _ => none

/-- The location and the value of a call, if it is a `glUniform1f`. -/
def GLCall.asUniform1f : GLCall → Option (Int × ℚ)
  | .uniform1f location value => some (location, value)
  | _ => none

/-- The `glUniform1f` calls of a sequence of calls, in order. -/
def uniformUpdates (calls : List GLCall) : List (Int × ℚ) :=
  calls.filterMap GLCall.asUniform1f

/-- The `glVertexAttribPointer` calls of a sequence of calls, in order. -/
def attribPointers (calls : List GLCall) : List AttribPointer :=
  calls.filterMap GLCall.asAttribPointer

/-- The `glBufferData` calls of a sequence of calls, in order. -/
def bufferUploads (calls : List GLCall) : List (Nat × Nat × List FloatLit) :=
  calls.filterMap GLCall.asBufferData

/-- The `glDrawArrays` calls of a sequence of calls, in order. -/
def drawRanges (calls : List GLCall) : List (Nat × Int × Int) :=
  calls.filterMap GLCall.asDrawArrays

/-- A viewport rectangle `(x, y, width, height)` as passed to `glViewport`. -/
abbrev Viewport := Int × Int × Int × Int

/-- The viewport after one more call: a `glViewport` call replaces it. -/
def viewportStep (v : Option Viewport) : GLCall → Option Viewport
  | .viewport x y width height => some (x, y, width, height)
  | _ => v

/-- The viewport requested last, after a sequence of calls (`v` before it). -/
def viewportAfter (v : Option Viewport) (calls : List GLCall) : Option Viewport :=
  calls.foldl viewportStep v

/-- Whether a call is a `glClear`. -/
def GLCall.isClear : GLCall → Bool
  | .clear _ => true
  | _ => false

/-- Whether a call is a `glDrawArrays`. -/
def GLCall.isDraw : GLCall → Bool
  | .drawArrays _ _ _ => true
  | _ => false

/-- Whether a call is the present call `window.display()`. -/
def GLCall.isDisplay : GLCall → Bool
  | .display => true
  | _ => false

/-- Whether a call is a `glViewport`. -/
def GLCall.isViewport : GLCall → Bool
  | .viewport _ _ _ _ => true
  | _ => false

/-- Whether a call is a `glGetUniformLocation`. -/
def GLCall.isGetUniformLocation : GLCall → Bool
  | .getUniformLocation _ _ => true
  | _ => false

/-- The viewport in effect at each `glClear` of a sequence of calls, in
order (`v` is the viewport before the sequence). -/
def viewportsAtClear (v : Option Viewport) : List GLCall → List (Option Viewport)
  | [] => []
  | c :: cs => (if c.isClear then [v] else []) ++ viewportsAtClear (viewportStep v c) cs

/-! ## Vocabulary of the properties -/

/-- A `Closed` event, or a `KeyPressed` event whose key code is `Escape`. -/
def Event.closing (ev : Event) : Bool :=
  decide (ev = .closed) || decide (ev = .keyPressed Key.Escape)

/-- The batch of events contains a closing event. -/
def closes (evs : List Event) : Bool :=
  evs.any Event.closing

/-- Some batch of the sequence contains a closing event, so that the frame
loop ends on these inputs. -/
def endsLoop (frames : List FrameInput) : Bool :=
  frames.any (fun f => closes f.events)

/-- The events of a batch that `pollEvent` hands out in one iteration; `isOpen`
says whether the window is open at the start.  Unless the library polls on
after a close, these are the events up to the first closing one. -/
def polled (env : Env) : List Event → Bool → List Event
  | [], _ => []
  | ev :: rest, isOpen =>
    if isOpen || env.pollAfterClose then
      ev :: polled env rest (isOpen && !ev.closing)
    else []

/-- The size carried by the last `Resized` event of a list of events. -/
def lastResized (evs : List Event) : Option (Nat × Nat) :=
  (evs.filterMap Event.getIfResized).getLast?

/-- The number of iterations the frame loop runs when it is entered with the
window open: one for each batch before the first closing batch, and one
for the closing batch. -/
def iterations (frames : List FrameInput) : Nat :=
  (frames.takeWhile (fun f => !closes f.events)).length + 1

/-- A call of the frame loop of the triangle demo: a `glViewport` at the
origin, or one of the commands of `Triangle.draw`. -/
def loopCall (prog : Nat) (uTimeLoc : Int) (vao : Nat) (c : GLCall) : Prop :=
  (∃ width height, c = .viewport 0 0 width height) ∨ ∃ time, c ∈ Triangle.draw prog uTimeLoc vao time

/-- What the two event-loop bodies have in common: a closing event closes
the window, any other event leaves it as it is. -/
structure ClosesOnRequest (onEvent : Event → World → World) : Prop where
  closing : ∀ ev w, ev.closing = true → (onEvent ev w).windowOpen = false
  other : ∀ ev w, ev.closing = false → (onEvent ev w).windowOpen = w.windowOpen

/-- The `glViewport` calls the triangle demo issues for a list of polled
events: one for each `Resized` event, in order. -/
def resizeCalls (evs : List Event) : List GLCall :=
  evs.filterMap (fun ev =>
    ev.getIfResized.map (fun rs => GLCall.viewport 0 0 (toGLsizei rs.1) (toGLsizei rs.2)))

/-- Whether a call is a `glGenVertexArrays` or a `glGenBuffers`. -/
def GLCall.isGen : GLCall → Bool
  | .genVertexArrays _ _ => true
  | .genBuffers _ _ => true
  | _ => false

/-- Whether a call is a `glUniform1f`. -/
def GLCall.isUniform : GLCall → Bool
  | .uniform1f _ _ => true
  | _ => false

/-- The calls `Triangle.main` issues between loading OpenGL and compiling the
shaders (lines 81-90). -/
def Triangle.bootCalls : List GLCall :=
  [ .getString GL_VENDOR, .getString GL_RENDERER, .getString GL_VERSION,
    .enable GL_DEBUG_OUTPUT, .enable GL_DEBUG_OUTPUT_SYNCHRONOUS, .debugMessageCallback,
    .enable GL_DEPTH_TEST ]

/-- The calls of a `compileShader` whose compile status is true. -/
def Triangle.compileCalls (type : Nat) (src : String) (sh : Nat) : List GLCall :=
  [ .createShader type sh, .shaderSource sh src, .compileShader sh,
    .getShaderiv sh GL_COMPILE_STATUS ]

/-- The calls of a `linkProgram` whose link status is true. -/
def Triangle.linkCalls (vs fs prog : Nat) : List GLCall :=
  [ .createProgram prog, .attachShader prog vs, .attachShader prog fs, .linkProgram prog,
    .getProgramiv prog GL_LINK_STATUS ]

/-- The calls of a `linkProgram` whose link status is false; `len` is the
length of the info log. -/
def Triangle.linkFailCalls (vs fs prog len : Nat) : List GLCall :=
  [ .createProgram prog, .attachShader prog vs, .attachShader prog fs, .linkProgram prog,
    .getProgramiv prog GL_LINK_STATUS, .getProgramiv prog GL_INFO_LOG_LENGTH,
    .getProgramInfoLog prog len, .deleteProgram prog ]

/-- The calls `Triangle.main` issues to set up the geometry and the initial
viewport (lines 147-170). -/
def Triangle.geometryCalls (env : Env) : List GLCall :=
  [ .genVertexArrays 1 env.vao, .genBuffers 1 env.vbo,
    .bindVertexArray env.vao, .bindBuffer GL_ARRAY_BUFFER env.vbo,
    .bufferData GL_ARRAY_BUFFER 60 Triangle.verts GL_STATIC_DRAW,
    .vertexAttribPointer 0 2 GL_FLOAT GL_FALSE 20 0, .enableVertexAttribArray 0,
    .vertexAttribPointer 1 3 GL_FLOAT GL_FALSE 20 8, .enableVertexAttribArray 1,
    .bindBuffer GL_ARRAY_BUFFER 0, .bindVertexArray 0,
    .viewport 0 0 (toGLsizei 1280) (toGLsizei 720) ]

/-- The calls `Triangle.main` issues after the frame loop (lines 210-212). -/
def Triangle.cleanupCalls (env : Env) : List GLCall :=
  [ .deleteVertexArrays 1 env.vao, .deleteBuffers 1 env.vbo, .deleteProgram env.prog.handle ]

/-- Whether a call belongs to a frame: a clear, a draw or a present. -/
def GLCall.isFrame (c : GLCall) : Bool :=
  c.isClear || c.isDraw || c.isDisplay

/-- The viewport `glViewport(0, 0, static_cast<GLsizei>(x), static_cast<GLsizei>(y))`
requests for a size `(x, y)`. -/
def viewportFor (size : Nat × Nat) : Viewport :=
  (0, 0, toGLsizei size.1, toGLsizei size.2)

/-- Driver answers in which the vertex shader compiles (handle `1`) and the
fragment shader does not (handle `2`). -/
def envFragmentFails : Env :=
  { loadOk := true, vendor := "V", renderer := "R", version := "3.3",
    vs := ⟨1, true, ""⟩, fs := ⟨2, false, "0:1: error\n"⟩, prog := ⟨3, true, ""⟩,
    uTimeLoc := 0, vao := 1, vbo := 1, startTime := 0, ticksPerSecond := 1000000000,
    pollAfterClose := false }

/-- Driver answers in which the vertex shader does not compile (handle `1`)
and the fragment shader does (handle `2`). -/
def envVertexFails : Env :=
  { loadOk := true, vendor := "V", renderer := "R", version := "3.3",
    vs := ⟨1, false, "0:1: error\n"⟩, fs := ⟨2, true, ""⟩, prog := ⟨3, true, ""⟩,
    uTimeLoc := 0, vao := 1, vbo := 1, startTime := 0, ticksPerSecond := 1000000000,
    pollAfterClose := false }

/-- Driver answers in which everything succeeds. -/
def envOk : Env :=
  { loadOk := true, vendor := "V", renderer := "R", version := "3.3",
    vs := ⟨1, true, ""⟩, fs := ⟨2, true, ""⟩, prog := ⟨3, true, ""⟩,
    uTimeLoc := 0, vao := 1, vbo := 1, startTime := 0, ticksPerSecond := 1000000000,
    pollAfterClose := false }

/-- Driver answers in which both shaders compile and the link fails. -/
def envLinkFails : Env :=
  { loadOk := true, vendor := "V", renderer := "R", version := "3.3",
    vs := ⟨1, true, ""⟩, fs := ⟨2, true, ""⟩, prog := ⟨3, false, "link error\n"⟩,
    uTimeLoc := -1, vao := 1, vbo := 1, startTime := 0, ticksPerSecond := 1000000000,
    pollAfterClose := false }

/-! ## Theorems -/

/-! ### Basic facts about the state -/

@[simp]
theorem World.gl_calls (w : World) (c : GLCall) : (w.gl c).calls = w.calls ++ [c] := rfl

@[simp]
theorem World.gl_cerr (w : World) (c : GLCall) : (w.gl c).cerr = w.cerr := rfl

@[simp]
theorem World.gl_cout (w : World) (c : GLCall) : (w.gl c).cout = w.cout := rfl

@[simp]
theorem World.gl_windowOpen (w : World) (c : GLCall) : (w.gl c).windowOpen = w.windowOpen := rfl

@[simp]
theorem World.gl_windowSize (w : World) (c : GLCall) : (w.gl c).windowSize = w.windowSize := rfl

@[simp]
theorem World.err_calls (w : World) (s : String) : (w.err s).calls = w.calls := rfl

@[simp]
theorem World.err_cerr (w : World) (s : String) : (w.err s).cerr = w.cerr ++ s := rfl

@[simp]
theorem World.err_windowOpen (w : World) (s : String) : (w.err s).windowOpen = w.windowOpen := rfl

@[simp]
theorem World.out_calls (w : World) (s : String) : (w.out s).calls = w.calls := rfl

@[simp]
theorem World.out_cerr (w : World) (s : String) : (w.out s).cerr = w.cerr := rfl

@[simp]
theorem World.out_windowOpen (w : World) (s : String) : (w.out s).windowOpen = w.windowOpen := rfl

@[simp]
theorem World.out_windowSize (w : World) (s : String) : (w.out s).windowSize = w.windowSize := rfl

@[simp]
theorem World.err_windowSize (w : World) (s : String) : (w.err s).windowSize = w.windowSize := rfl

@[simp]
theorem World.close_calls (w : World) : w.close.calls = w.calls := rfl

@[simp]
theorem World.close_windowOpen (w : World) : w.close.windowOpen = false := rfl

@[simp]
theorem World.deliver_calls (w : World) (ev : Event) : (w.deliver ev).calls = w.calls := by
  unfold World.deliver; split <;> rfl

@[simp]
theorem World.deliver_windowOpen (w : World) (ev : Event) :
    (w.deliver ev).windowOpen = w.windowOpen := by
  unfold World.deliver; split <;> rfl

theorem foldl_gl_calls (l : List GLCall) (w : World) :
    (l.foldl World.gl w).calls = w.calls ++ l := by
  induction l generalizing w with
  | nil => simp
  | cons c cs ih => simp [ih]

theorem foldl_gl_windowOpen (l : List GLCall) (w : World) :
    (l.foldl World.gl w).windowOpen = w.windowOpen := by
  induction l generalizing w with
  | nil => simp
  | cons c cs ih => simp [ih]

/-! ### The 32-bit `float` -/

theorem roundFloat32_16777217 : roundFloat32 16777217 = 16777216 := by
  have hlog : Int.log 2 |(16777217 : ℚ)| = 24 := by
    rw [abs_of_pos (by norm_num)]
    have h : ((16777217 : ℕ) : ℚ) = 16777217 := by norm_num
    rw [← h, Int.log_natCast]
    have : Nat.log 2 16777217 = 24 := by
      apply Nat.log_eq_of_pow_le_of_lt_pow <;> norm_num
    rw [this]; rfl
  have hf : ⌊(16777217 : ℚ) / 2⌋ = 8388608 := by
    rw [Int.floor_eq_iff]; norm_num
  unfold roundFloat32
  rw [if_neg (by norm_num), hlog]
  norm_num [roundHalfEven, hf]

theorem roundFloat32_16777216 : roundFloat32 16777216 = 16777216 := by
  have hlog : Int.log 2 |(16777216 : ℚ)| = 24 := by
    rw [abs_of_pos (by norm_num)]
    have h : ((16777216 : ℕ) : ℚ) = 16777216 := by norm_num
    rw [← h, Int.log_natCast]
    have : Nat.log 2 16777216 = 24 := by
      apply Nat.log_eq_of_pow_le_of_lt_pow <;> norm_num
    rw [this]; rfl
  have hf : ⌊(16777216 : ℚ) / 2⌋ = 8388608 := by
    rw [Int.floor_eq_iff]; norm_num
  unfold roundFloat32
  rw [if_neg (by norm_num), hlog]
  norm_num [roundHalfEven, hf]

/-- Tick counts that the `float` cannot tell apart give the same seconds. -/
theorem durationFloatSeconds_coincide (ticksPerSecond : Nat) :
    durationFloatSeconds ticksPerSecond 16777217
      = durationFloatSeconds ticksPerSecond 16777216 := by
  unfold durationFloatSeconds
  have h1 : ((16777217 : ℤ) : ℚ) = 16777217 := by norm_num
  have h2 : ((16777216 : ℤ) : ℚ) = 16777216 := by norm_num
  rw [h1, h2, roundFloat32_16777217, roundFloat32_16777216]

/-! ### The helpers of the triangle demo -/

/-- C6: with a non-zero handle from `glCreateShader`, `compileShader` returns `0`
exactly when the compile status is false; then it writes
`"Shader compile failed:\n"`, the info log and a newline to `std::cerr` and
its last call deletes the shader object it created; when the status is true
it returns the handle of the created shader object, writes nothing to
`std::cerr` and none of its calls deletes anything. -/
theorem compileShader_contract (type : Nat) (src : String) (r : ObjectResult) (w : World)
    (hhandle : r.handle ≠ 0) :
    ((Triangle.compileShader type src r w).1 = 0 ↔ r.ok = false) ∧
    (r.ok = false →
      (Triangle.compileShader type src r w).2.cerr
          = w.cerr ++ ("Shader compile failed:\n" ++ r.log ++ "\n") ∧
      (Triangle.compileShader type src r w).2.calls
          = w.calls ++ [.createShader type r.handle, .shaderSource r.handle src,
              .compileShader r.handle, .getShaderiv r.handle GL_COMPILE_STATUS,
              .getShaderiv r.handle GL_INFO_LOG_LENGTH,
              .getShaderInfoLog r.handle r.log.length, .deleteShader r.handle]) ∧
    (r.ok = true →
      (Triangle.compileShader type src r w).1 = r.handle ∧
      (Triangle.compileShader type src r w).2.cerr = w.cerr ∧
      (Triangle.compileShader type src r w).2.calls
          = w.calls ++ Triangle.compileCalls type src r.handle ∧
      ∀ c ∈ Triangle.compileCalls type src r.handle, c.deletes = none) := by
  cases hok : r.ok
  · simp [Triangle.compileShader, hok]
  · simp [Triangle.compileShader, Triangle.compileCalls, hok, hhandle, GLCall.deletes]

/-- A failing and a succeeding compile with handle `1`. -/
theorem compileShader_contract_witness :
    (1 : Nat) ≠ 0 ∧
    (Triangle.compileShader GL_VERTEX_SHADER Triangle.vsSrc ⟨1, false, "bad\n"⟩ World.start).1 = 0 ∧
    (Triangle.compileShader GL_VERTEX_SHADER Triangle.vsSrc ⟨1, true, ""⟩ World.start).1 = 1 :=
  ⟨by decide,
   (compileShader_contract GL_VERTEX_SHADER Triangle.vsSrc ⟨1, false, "bad\n"⟩ World.start
    (by decide)).1.2 rfl,
   ((compileShader_contract GL_VERTEX_SHADER Triangle.vsSrc ⟨1, true, ""⟩ World.start
    (by decide)).2.2 rfl).1⟩

/-- C8: `glDebugCb` writes nothing for severity `GL_DEBUG_SEVERITY_NOTIFICATION`
and otherwise exactly `"GL: "`, the message and a newline; what it writes is
the same for all values of the source, type, id, length and user-parameter
arguments. -/
theorem glDebugCb_filter (source type id severity : Nat) (length : Int) (message : String)
    (userParam : Nat) (cerr : String) :
    (severity = GL_DEBUG_SEVERITY_NOTIFICATION →
      Triangle.glDebugCb source type id severity length message userParam cerr = cerr) ∧
    (severity ≠ GL_DEBUG_SEVERITY_NOTIFICATION →
      Triangle.glDebugCb source type id severity length message userParam cerr
        = cerr ++ "GL: " ++ message ++ "\n") ∧
    (∀ (source2 type2 id2 : Nat) (length2 : Int) (userParam2 : Nat),
      Triangle.glDebugCb source2 type2 id2 severity length2 message userParam2 cerr
        = Triangle.glDebugCb source type id severity length message userParam cerr) := by
  refine ⟨?_, ?_, ?_⟩
  · intro h; simp [Triangle.glDebugCb, h]
  · intro h; simp [Triangle.glDebugCb, h]
  · intros; rfl

/-- A notification and a high-severity message. -/
theorem glDebugCb_filter_witness :
    Triangle.glDebugCb 0 0 0 GL_DEBUG_SEVERITY_NOTIFICATION 5 "hello" 0 "" = "" ∧
    Triangle.glDebugCb 1 2 3 0x9146 5 "hello" 0 "" = "" ++ "GL: " ++ "hello" ++ "\n" :=
  ⟨(glDebugCb_filter 0 0 0 GL_DEBUG_SEVERITY_NOTIFICATION 5 "hello" 0 "").1 rfl,
   (glDebugCb_filter 1 2 3 0x9146 5 "hello" 0 "").2.1 (by decide)⟩

/-! ### The event loop -/

theorem Event.closing_iff (ev : Event) :
    ev.closing = true ↔ ev = .closed ∨ ev = .keyPressed Key.Escape := by
  simp [Event.closing]

theorem triangle_onEvent_closesOnRequest : ClosesOnRequest Triangle.onEvent := by
  constructor
  · intro ev w h
    rcases (Event.closing_iff ev).1 h with h | h <;> subst h <;>
      simp [Triangle.onEvent, Event.isClosed, Event.getIfResized, Event.getIfKeyPressed]
  · intro ev w h
    cases ev with
    | closed => simp [Event.closing] at h
    | resized x y =>
      simp [Triangle.onEvent, Event.isClosed, Event.getIfResized, Event.getIfKeyPressed]
    | keyPressed code =>
      have hc : code ≠ Key.Escape := by
        intro hc; subst hc; simp [Event.closing] at h
      simp [Triangle.onEvent, Event.isClosed, Event.getIfResized, Event.getIfKeyPressed, hc]
    | other k =>
      simp [Triangle.onEvent, Event.isClosed, Event.getIfResized, Event.getIfKeyPressed]

theorem blank_onEvent_closesOnRequest : ClosesOnRequest Blank.onEvent := by
  constructor
  · intro ev w h
    rcases (Event.closing_iff ev).1 h with h | h <;> subst h <;>
      simp [Blank.onEvent, Event.isClosed, Event.isKeyPressed, Event.getIfKeyPressed]
  · intro ev w h
    cases ev with
    | closed => simp [Event.closing] at h
    | resized x y =>
      simp [Blank.onEvent, Event.isClosed, Event.isKeyPressed, Event.getIfKeyPressed]
    | keyPressed code =>
      have hc : code ≠ Key.Escape := by
        intro hc; subst hc; simp [Event.closing] at h
      simp [Blank.onEvent, Event.isClosed, Event.isKeyPressed, Event.getIfKeyPressed, hc]
    | other k =>
      simp [Blank.onEvent, Event.isClosed, Event.isKeyPressed, Event.getIfKeyPressed]

theorem ClosesOnRequest.stays_closed {onEvent : Event → World → World}
    (h : ClosesOnRequest onEvent) (ev : Event) (w : World) (hw : w.windowOpen = false) :
    (onEvent ev w).windowOpen = false := by
  cases hev : ev.closing
  · rw [h.other ev w hev]; exact hw
  · exact h.closing ev w hev

theorem pollLoop_stays_closed (env : Env) {onEvent : Event → World → World}
    (h : ClosesOnRequest onEvent) (evs : List Event) (w : World) (hw : w.windowOpen = false) :
    (pollLoop env onEvent evs w).windowOpen = false := by
  induction evs generalizing w with
  | nil => simpa [pollLoop] using hw
  | cons ev rest ih =>
    unfold pollLoop
    split
    · exact ih _ (h.stays_closed ev _ (by simpa using hw))
    · exact hw

theorem pollLoop_closes (env : Env) {onEvent : Event → World → World}
    (h : ClosesOnRequest onEvent) (evs : List Event) (w : World)
    (hw : w.windowOpen = true) (hc : closes evs = true) :
    (pollLoop env onEvent evs w).windowOpen = false := by
  induction evs generalizing w with
  | nil => simp [closes] at hc
  | cons ev rest ih =>
    unfold pollLoop
    simp only [hw, Bool.true_or, if_true]
    cases hev : ev.closing
    · have hrest : closes rest = true := by
        simpa [closes, hev] using hc
      exact ih _ (by rw [h.other ev _ hev]; simpa using hw) hrest
    · exact pollLoop_stays_closed env h rest _ (h.closing ev _ hev)

theorem pollLoop_stays_open (env : Env) {onEvent : Event → World → World}
    (h : ClosesOnRequest onEvent) (evs : List Event) (w : World)
    (hc : closes evs = false) :
    (pollLoop env onEvent evs w).windowOpen = w.windowOpen := by
  induction evs generalizing w with
  | nil => simp [pollLoop]
  | cons ev rest ih =>
    have hev : ev.closing = false := by
      cases hev : ev.closing
      · rfl
      · simp [closes, hev] at hc
    have hrest : closes rest = false := by
      simpa [closes, hev] using hc
    unfold pollLoop
    split
    · rw [ih _ hrest, h.other ev _ hev]; simp
    · rfl

theorem triangle_frame_windowOpen (env : Env) (prog : Nat) (uTimeLoc : Int) (vao : Nat)
    (startTime : Int) (f : FrameInput) (w : World) :
    (Triangle.frame env prog uTimeLoc vao startTime f w).windowOpen
      = (pollLoop env Triangle.onEvent f.events w).windowOpen := by
  simp [Triangle.frame, foldl_gl_windowOpen]

theorem blank_frame_windowOpen (env : Env) (f : FrameInput) (w : World) :
    (Blank.frame env f w).windowOpen = (pollLoop env Blank.onEvent f.events w).windowOpen := by
  simp [Blank.frame]

/-! ### The frame loop -/

theorem whileOpen_last (body : FrameInput → World → World) (f : FrameInput)
    (rest : List FrameInput) (w : World) (hw : w.windowOpen = true)
    (hb : (body f w).windowOpen = false) :
    whileOpen body (f :: rest) w = some (body f w, 1) := by
  cases rest <;> simp [whileOpen, hw, hb]

theorem whileOpen_next (body : FrameInput → World → World) (f : FrameInput)
    (rest : List FrameInput) (w : World) (hw : w.windowOpen = true) :
    whileOpen body (f :: rest) w
      = (whileOpen body rest (body f w)).map (fun r => (r.1, r.2 + 1)) := by
  simp [whileOpen, hw]

theorem closes_of_mem (before after : List Event) (ev : Event)
    (hev : ev = .closed ∨ ev = .keyPressed Key.Escape) :
    closes (before ++ ev :: after) = true := by
  simp [closes, (Event.closing_iff ev).2 hev]

theorem not_closes_of_forall (evs : List Event)
    (h : ∀ ev ∈ evs, ev ≠ .closed ∧ ev ≠ .keyPressed Key.Escape) :
    closes evs = false := by
  cases hc : closes evs
  · rfl
  · simp only [closes, List.any_eq_true] at hc
    obtain ⟨ev, hmem, hev⟩ := hc
    rcases (Event.closing_iff ev).1 hev with h1 | h1
    · exact absurd h1 (h ev hmem).1
    · exact absurd h1 (h ev hmem).2

/-- C2: in both programs, when the batch polled in an iteration entered with the
window open contains a `Closed` event or a `KeyPressed` event with key code
`Escape`, at any position, the window is closed at the end of that iteration
and the frame loop ends with it: it runs exactly this one iteration and none
of the later batches is looked at. -/
theorem close_within_one_iteration (env : Env) (prog : Nat) (uTimeLoc : Int) (vao : Nat)
    (startTime : Int) (before after : List Event) (ev : Event) (now : Int)
    (rest : List FrameInput) (w : World)
    (hopen : w.windowOpen = true)
    (hev : ev = .closed ∨ ev = .keyPressed Key.Escape) :
    (Triangle.frame env prog uTimeLoc vao startTime ⟨before ++ ev :: after, now⟩ w).windowOpen
      = false ∧
    whileOpen (Triangle.frame env prog uTimeLoc vao startTime)
        (⟨before ++ ev :: after, now⟩ :: rest) w
      = some (Triangle.frame env prog uTimeLoc vao startTime ⟨before ++ ev :: after, now⟩ w, 1) ∧
    (Blank.frame env ⟨before ++ ev :: after, now⟩ w).windowOpen = false ∧
    whileOpen (Blank.frame env) (⟨before ++ ev :: after, now⟩ :: rest) w
      = some (Blank.frame env ⟨before ++ ev :: after, now⟩ w, 1) := by
  have hc := closes_of_mem before after ev hev
  have ht : (Triangle.frame env prog uTimeLoc vao startTime
      ⟨before ++ ev :: after, now⟩ w).windowOpen = false := by
    rw [triangle_frame_windowOpen]
    exact pollLoop_closes env triangle_onEvent_closesOnRequest _ w hopen hc
  have hb : (Blank.frame env ⟨before ++ ev :: after, now⟩ w).windowOpen = false := by
    rw [blank_frame_windowOpen]
    exact pollLoop_closes env blank_onEvent_closesOnRequest _ w hopen hc
  exact ⟨ht, whileOpen_last _ _ rest w hopen ht, hb, whileOpen_last _ _ rest w hopen hb⟩

/-- An `Escape` press between two `Resized` events. -/
theorem close_within_one_iteration_witness :
    whileOpen (Triangle.frame envOk 3 0 1 0)
        (⟨[.other 7, .resized 800 600] ++ .keyPressed Key.Escape :: [.resized 1 1], 4⟩ :: [⟨[], 5⟩])
        World.start
      = some (Triangle.frame envOk 3 0 1 0
          ⟨[.other 7, .resized 800 600] ++ .keyPressed Key.Escape :: [.resized 1 1], 4⟩
          World.start, 1) :=
  (close_within_one_iteration envOk 3 0 1 0 [.other 7, .resized 800 600] [.resized 1 1]
    (.keyPressed Key.Escape) 4 [⟨[], 5⟩] World.start rfl (Or.inr rfl)).2.1

/-- C3: in both programs, when the batch polled in an iteration entered with the
window open contains no `Closed` event and no `KeyPressed` event with key
code `Escape`, the window is still open after the iteration and the frame
loop goes on: with a further batch available it runs the next iteration on
it. -/
theorem stays_running_without_close (env : Env) (prog : Nat) (uTimeLoc : Int) (vao : Nat)
    (startTime : Int) (f g : FrameInput) (rest : List FrameInput) (w : World)
    (hopen : w.windowOpen = true)
    (hno : ∀ ev ∈ f.events, ev ≠ .closed ∧ ev ≠ .keyPressed Key.Escape) :
    (Triangle.frame env prog uTimeLoc vao startTime f w).windowOpen = true ∧
    whileOpen (Triangle.frame env prog uTimeLoc vao startTime) (f :: g :: rest) w
      = (whileOpen (Triangle.frame env prog uTimeLoc vao startTime) rest
          (Triangle.frame env prog uTimeLoc vao startTime g
            (Triangle.frame env prog uTimeLoc vao startTime f w))).map
          (fun r => (r.1, r.2 + 2)) ∧
    (Blank.frame env f w).windowOpen = true ∧
    whileOpen (Blank.frame env) (f :: g :: rest) w
      = (whileOpen (Blank.frame env) rest (Blank.frame env g (Blank.frame env f w))).map
          (fun r => (r.1, r.2 + 2)) := by
  have hc := not_closes_of_forall f.events hno
  have ht : (Triangle.frame env prog uTimeLoc vao startTime f w).windowOpen = true := by
    rw [triangle_frame_windowOpen, pollLoop_stays_open env triangle_onEvent_closesOnRequest _ w hc]
    exact hopen
  have hb : (Blank.frame env f w).windowOpen = true := by
    rw [blank_frame_windowOpen, pollLoop_stays_open env blank_onEvent_closesOnRequest _ w hc]
    exact hopen
  refine ⟨ht, ?_, hb, ?_⟩
  · rw [whileOpen_next _ _ _ w hopen, whileOpen_next _ _ _ _ ht]
    cases whileOpen (Triangle.frame env prog uTimeLoc vao startTime) rest
        (Triangle.frame env prog uTimeLoc vao startTime g
          (Triangle.frame env prog uTimeLoc vao startTime f w)) <;> simp
  · rw [whileOpen_next _ _ _ w hopen, whileOpen_next _ _ _ _ hb]
    cases whileOpen (Blank.frame env) rest (Blank.frame env g (Blank.frame env f w)) <;> simp

/-- A batch of a resize, a press of another key and another event. -/
theorem stays_running_without_close_witness :
    (Triangle.frame envOk 3 0 1 0 ⟨[.resized 800 600, .keyPressed 0, .other 3], 1⟩
      World.start).windowOpen = true ∧
    (Blank.frame envOk ⟨[.resized 800 600, .keyPressed 0, .other 3], 1⟩
      World.start).windowOpen = true :=
  have h := stays_running_without_close envOk 3 0 1 0
    ⟨[.resized 800 600, .keyPressed 0, .other 3], 1⟩ ⟨[.closed], 2⟩ [] World.start rfl
    (by decide)
  ⟨h.1, h.2.2.1⟩

/-! ### Calls issued by the frame loop of the triangle demo -/

theorem Triangle.onEvent_calls (ev : Event) (w : World) :
    (Triangle.onEvent ev w).calls = w.calls ++ resizeCalls [ev] := by
  cases ev with
  | closed => simp [Triangle.onEvent, Event.isClosed, resizeCalls, Event.getIfResized]
  | resized x y =>
    simp [Triangle.onEvent, Event.isClosed, resizeCalls, Event.getIfResized,
      Event.getIfKeyPressed]
  | keyPressed code =>
    by_cases hc : code = Key.Escape <;>
      simp [Triangle.onEvent, Event.isClosed, resizeCalls, Event.getIfResized,
        Event.getIfKeyPressed, hc]
  | other k =>
    simp [Triangle.onEvent, Event.isClosed, resizeCalls, Event.getIfResized,
      Event.getIfKeyPressed]

theorem resizeCalls_cons (ev : Event) (evs : List Event) :
    resizeCalls (ev :: evs) = resizeCalls [ev] ++ resizeCalls evs := by
  simp only [resizeCalls, List.filterMap_cons, List.filterMap_nil]
  cases Option.map (fun rs => GLCall.viewport 0 0 (toGLsizei rs.1) (toGLsizei rs.2))
    ev.getIfResized <;> simp

theorem resizeCalls_append (evs evs2 : List Event) :
    resizeCalls (evs ++ evs2) = resizeCalls evs ++ resizeCalls evs2 := by
  simp [resizeCalls]

theorem ClosesOnRequest.windowOpen_eq {onEvent : Event → World → World}
    (h : ClosesOnRequest onEvent) (ev : Event) (w : World) :
    (onEvent ev w).windowOpen = (w.windowOpen && !ev.closing) := by
  cases hev : ev.closing
  · simp [h.other ev w hev]
  · simp [h.closing ev w hev]

theorem Triangle.pollLoop_calls (env : Env) (evs : List Event) (w : World) :
    (pollLoop env Triangle.onEvent evs w).calls
      = w.calls ++ resizeCalls (polled env evs w.windowOpen) := by
  induction evs generalizing w with
  | nil => simp [pollLoop, polled, resizeCalls]
  | cons ev rest ih =>
    unfold pollLoop polled
    by_cases hgo : (w.windowOpen || env.pollAfterClose) = true
    · rw [if_pos hgo, if_pos hgo, ih, Triangle.onEvent_calls,
        triangle_onEvent_closesOnRequest.windowOpen_eq,
        resizeCalls_cons ev (polled env rest _)]
      simp
    · rw [if_neg hgo, if_neg hgo]
      simp [resizeCalls]

theorem Triangle.frame_calls (env : Env) (prog : Nat) (uTimeLoc : Int) (vao : Nat)
    (startTime : Int) (f : FrameInput) (w : World) :
    (Triangle.frame env prog uTimeLoc vao startTime f w).calls
      = w.calls ++ resizeCalls (polled env f.events w.windowOpen)
          ++ Triangle.draw prog uTimeLoc vao
            (durationFloatSeconds env.ticksPerSecond (f.now - startTime)) := by
  simp [Triangle.frame, foldl_gl_calls, Triangle.pollLoop_calls]

theorem resizeCalls_loopCall (prog : Nat) (uTimeLoc : Int) (vao : Nat) (evs : List Event) :
    ∀ c ∈ resizeCalls evs, loopCall prog uTimeLoc vao c := by
  intro c hc
  simp only [resizeCalls, List.mem_filterMap, Option.map_eq_some'] at hc
  obtain ⟨ev, _, rs, _, hrs⟩ := hc
  exact Or.inl ⟨_, _, hrs.symm⟩

theorem resizeCalls_countP (p : GLCall → Bool) (hp : ∀ x y width height, p (.viewport x y width height) = false)
    (evs : List Event) : (resizeCalls evs).countP p = 0 := by
  rw [List.countP_eq_zero]
  intro c hc
  simp only [resizeCalls, List.mem_filterMap, Option.map_eq_some'] at hc
  obtain ⟨ev, _, rs, _, hrs⟩ := hc
  subst hrs
  simp [hp]

/-- The calls one run of the frame loop of the triangle demo adds. -/
theorem Triangle.whileOpen_calls (env : Env) (prog : Nat) (uTimeLoc : Int) (vao : Nat)
    (startTime : Int) (frames : List FrameInput) (w w2 : World) (n : Nat)
    (hrun : whileOpen (Triangle.frame env prog uTimeLoc vao startTime) frames w = some (w2, n)) :
    ∃ added, w2.calls = w.calls ++ added ∧ (∀ c ∈ added, loopCall prog uTimeLoc vao c) ∧
      added.countP GLCall.isDraw = n ∧ added.countP GLCall.isDisplay = n := by
  induction frames generalizing w w2 n with
  | nil =>
    unfold whileOpen at hrun
    split at hrun
    · cases hrun
    · cases hrun; exact ⟨[], by simp⟩
  | cons f fs ih =>
    unfold whileOpen at hrun
    split at hrun
    · cases hr : whileOpen (Triangle.frame env prog uTimeLoc vao startTime) fs
          (Triangle.frame env prog uTimeLoc vao startTime f w) with
      | none => rw [hr] at hrun; cases hrun
      | some r =>
        rw [hr] at hrun
        obtain ⟨w3, m⟩ := r
        simp only [Option.map_some', Option.some.injEq, Prod.mk.injEq] at hrun
        obtain ⟨h1, h2⟩ := hrun
        subst h1 h2
        obtain ⟨added, hcalls, hloop, hdraw, hdisp⟩ := ih _ _ _ hr
        refine ⟨resizeCalls (polled env f.events w.windowOpen)
          ++ Triangle.draw prog uTimeLoc vao
            (durationFloatSeconds env.ticksPerSecond (f.now - startTime)) ++ added, ?_, ?_, ?_, ?_⟩
        · rw [hcalls, Triangle.frame_calls]; simp
        · intro c hc
          rcases List.mem_append.1 hc with hc | hc
          · rcases List.mem_append.1 hc with hc | hc
            · exact resizeCalls_loopCall _ _ _ _ c hc
            · exact Or.inr ⟨_, hc⟩
          · exact hloop c hc
        · rw [List.countP_append, List.countP_append, hdraw,
            resizeCalls_countP _ (fun _ _ _ _ => rfl)]
          simp [Triangle.draw, GLCall.isDraw, List.countP_cons]
          omega
        · rw [List.countP_append, List.countP_append, hdisp,
            resizeCalls_countP _ (fun _ _ _ _ => rfl)]
          simp [Triangle.draw, GLCall.isDisplay, List.countP_cons]
          omega
    · cases hrun; exact ⟨[], by simp⟩

/-- A frame loop whose body closes the window on a closing batch and keeps it
open otherwise ends on inputs that contain a closing batch, after
`iterations frames` iterations. -/
theorem whileOpen_ends (body : FrameInput → World → World)
    (hclose : ∀ f w, w.windowOpen = true → closes f.events = true →
      (body f w).windowOpen = false)
    (hkeep : ∀ f w, w.windowOpen = true → closes f.events = false →
      (body f w).windowOpen = true)
    (frames : List FrameInput) (w : World) (hw : w.windowOpen = true)
    (hend : endsLoop frames = true) :
    ∃ w2, whileOpen body frames w = some (w2, iterations frames) ∧ w2.windowOpen = false := by
  induction frames generalizing w with
  | nil => simp [endsLoop] at hend
  | cons f fs ih =>
    cases hc : closes f.events
    · have hrest : endsLoop fs = true := by simpa [endsLoop, hc] using hend
      obtain ⟨w2, hrun, hclosed⟩ := ih _ (hkeep f w hw hc) hrest
      refine ⟨w2, ?_, hclosed⟩
      rw [whileOpen_next _ _ _ _ hw, hrun]
      simp [iterations, hc]
    · refine ⟨body f w, ?_, hclose f w hw hc⟩
      rw [whileOpen_last _ _ _ _ hw (hclose f w hw hc)]
      simp [iterations, hc]

theorem triangle_whileOpen_ends (env : Env) (prog : Nat) (uTimeLoc : Int) (vao : Nat)
    (startTime : Int) (frames : List FrameInput) (w : World) (hw : w.windowOpen = true)
    (hend : endsLoop frames = true) :
    ∃ w2, whileOpen (Triangle.frame env prog uTimeLoc vao startTime) frames w
        = some (w2, iterations frames) ∧ w2.windowOpen = false := by
  apply Engine.whileOpen_ends _ _ _ frames w hw hend
  · intro f w hw hc
    rw [triangle_frame_windowOpen]
    exact pollLoop_closes env triangle_onEvent_closesOnRequest _ w hw hc
  · intro f w hw hc
    rw [triangle_frame_windowOpen, pollLoop_stays_open env triangle_onEvent_closesOnRequest _ w hc]
    exact hw

theorem blank_whileOpen_ends (env : Env) (frames : List FrameInput) (w : World)
    (hw : w.windowOpen = true) (hend : endsLoop frames = true) :
    ∃ w2, whileOpen (Blank.frame env) frames w
        = some (w2, iterations frames) ∧ w2.windowOpen = false := by
  apply Engine.whileOpen_ends _ _ _ frames w hw hend
  · intro f w hw hc
    rw [blank_frame_windowOpen]
    exact pollLoop_closes env blank_onEvent_closesOnRequest _ w hw hc
  · intro f w hw hc
    rw [blank_frame_windowOpen, pollLoop_stays_open env blank_onEvent_closesOnRequest _ w hc]
    exact hw

theorem triangle_whileOpen_result {env : Env} {prog : Nat} {uTimeLoc : Int} {vao : Nat}
    {startTime : Int} {frames : List FrameInput} {w : World} {r : Option (World × Nat)}
    (hrun : whileOpen (Triangle.frame env prog uTimeLoc vao startTime) frames w = r)
    (hw : w.windowOpen = true) (hend : endsLoop frames = true) :
    ∃ w2, r = some (w2, iterations frames) ∧ w2.windowOpen = false := by
  obtain ⟨w2, h, hclosed⟩ := triangle_whileOpen_ends env prog uTimeLoc vao startTime frames w hw hend
  exact ⟨w2, by rw [← hrun, h], hclosed⟩

theorem blank_whileOpen_result {env : Env} {frames : List FrameInput} {w : World}
    {r : Option (World × Nat)}
    (hrun : whileOpen (Blank.frame env) frames w = r)
    (hw : w.windowOpen = true) (hend : endsLoop frames = true) :
    ∃ w2, r = some (w2, iterations frames) ∧ w2.windowOpen = false := by
  obtain ⟨w2, h, hclosed⟩ := blank_whileOpen_ends env frames w hw hend
  exact ⟨w2, by rw [← hrun, h], hclosed⟩

theorem triangle_main_success (env : Env) (frames : List FrameInput)
    (hload : env.loadOk = true) (hvs : env.vs.ok = true) (hfs : env.fs.ok = true)
    (hprog : env.prog.ok = true) (hvsh : env.vs.handle ≠ 0) (hfsh : env.fs.handle ≠ 0)
    (hph : env.prog.handle ≠ 0) (hend : endsLoop frames = true) :
    ∃ w added, Triangle.main env frames = some (0, w) ∧ w.windowOpen = false ∧
      w.calls = Triangle.bootCalls
        ++ Triangle.compileCalls GL_VERTEX_SHADER Triangle.vsSrc env.vs.handle
        ++ Triangle.compileCalls GL_FRAGMENT_SHADER Triangle.fsSrc env.fs.handle
        ++ Triangle.linkCalls env.vs.handle env.fs.handle env.prog.handle
        ++ [.getUniformLocation env.prog.handle "uTime"]
        ++ [.deleteShader env.vs.handle, .deleteShader env.fs.handle]
        ++ Triangle.geometryCalls env
        ++ added
        ++ Triangle.cleanupCalls env ∧
      (∀ c ∈ added, loopCall env.prog.handle env.uTimeLoc env.vao c) ∧
      added.countP GLCall.isDraw = iterations frames ∧
      added.countP GLCall.isDisplay = iterations frames := by
  simp only [Triangle.main, Triangle.compileShader, Triangle.linkProgram, hload, hvs, hfs, hprog,
    hvsh, hfsh, hph, Bool.not_true, Bool.false_eq_true, if_false, Bool.or_self,
    decide_False]
  split
  · rename_i heq
    obtain ⟨w2, hr, -⟩ := triangle_whileOpen_result heq rfl hend
    cases hr
  · rename_i w2 n heq
    obtain ⟨w3, hr, hclosed⟩ := triangle_whileOpen_result heq rfl hend
    cases hr
    obtain ⟨added, hcalls, hloop, hdraw, hdisp⟩ := Triangle.whileOpen_calls _ _ _ _ _ _ _ _ _ heq
    refine ⟨_, added, rfl, by simpa using hclosed, ?_, hloop, hdraw, hdisp⟩
    have hsize : Triangle.sizeofVerts = 60 := rfl
    simp [hcalls, World.start, Triangle.bootCalls, Triangle.compileCalls, Triangle.linkCalls,
      Triangle.geometryCalls, Triangle.cleanupCalls, hsize, sizeofFloat]

theorem blank_main_success (env : Env) (frames : List FrameInput)
    (hload : env.loadOk = true) (hend : endsLoop frames = true) :
    ∃ w, Blank.main env frames = some (0, w) ∧ w.windowOpen = false := by
  simp only [Blank.main, hload, Bool.not_true, Bool.false_eq_true, if_false]
  split
  · rename_i heq
    obtain ⟨w2, hr, -⟩ := blank_whileOpen_result heq rfl hend
    cases hr
  · rename_i w2 n heq
    obtain ⟨w3, hr, hclosed⟩ := blank_whileOpen_result heq rfl hend
    cases hr
    exact ⟨_, rfl, hclosed⟩

/-- C1: with non-zero handles from the driver and inputs that end the frame
loop, the triangle demo's `main` returns, and its exit code is `1` exactly
when loading OpenGL fails, or the vertex or the fragment shader fails to
compile, or the link fails, and `0` otherwise, in which case the window has
been closed; the blank-window demo's `main` returns, with exit code `1`
exactly when loading OpenGL fails and `0` otherwise. -/
theorem exit_codes (env : Env) (frames : List FrameInput)
    (hvsh : env.vs.handle ≠ 0) (hfsh : env.fs.handle ≠ 0) (hph : env.prog.handle ≠ 0)
    (hend : endsLoop frames = true) :
    (∃ code w, Triangle.main env frames = some (code, w) ∧
      (code = 1 ↔ (env.loadOk = false ∨ env.vs.ok = false ∨ env.fs.ok = false
        ∨ env.prog.ok = false)) ∧
      (code = 0 ↔ (env.loadOk = true ∧ env.vs.ok = true ∧ env.fs.ok = true
        ∧ env.prog.ok = true)) ∧
      (code = 0 → w.windowOpen = false)) ∧
    (∃ code w, Blank.main env frames = some (code, w) ∧
      (code = 1 ↔ env.loadOk = false) ∧ (code = 0 ↔ env.loadOk = true) ∧
      (code = 0 → w.windowOpen = false)) := by
  constructor
  · cases hload : env.loadOk
    · obtain ⟨w, hw⟩ : ∃ w, Triangle.main env frames = some (1, w) := by
        simp [Triangle.main, hload]
      exact ⟨1, w, hw, by simp⟩
    cases hvs : env.vs.ok
    · obtain ⟨w, hw⟩ : ∃ w, Triangle.main env frames = some (1, w) := by
        simp [Triangle.main, Triangle.compileShader, hload, hvs]
      exact ⟨1, w, hw, by simp⟩
    cases hfs : env.fs.ok
    · obtain ⟨w, hw⟩ : ∃ w, Triangle.main env frames = some (1, w) := by
        simp [Triangle.main, Triangle.compileShader, hload, hvs, hfs]
      exact ⟨1, w, hw, by simp⟩
    cases hprog : env.prog.ok
    · obtain ⟨w, hw⟩ : ∃ w, Triangle.main env frames = some (1, w) := by
        simp [Triangle.main, Triangle.compileShader, Triangle.linkProgram, hload, hvs, hfs,
          hprog, hvsh, hfsh]
      exact ⟨1, w, hw, by simp⟩
    · obtain ⟨w, _, hmain, hclosed, -⟩ :=
        triangle_main_success env frames hload hvs hfs hprog hvsh hfsh hph hend
      exact ⟨0, w, hmain, by simp, by simp, fun _ => hclosed⟩
  · cases hload : env.loadOk
    · obtain ⟨w, hw⟩ : ∃ w, Blank.main env frames = some (1, w) := by
        simp [Blank.main, hload]
      exact ⟨1, w, hw, by simp⟩
    · obtain ⟨w, hmain, hclosed⟩ := blank_main_success env frames hload hend
      exact ⟨0, w, hmain, by simp, by simp, fun _ => hclosed⟩

/-- A run in which the link fails. -/
theorem exit_codes_witness :
    ∃ code w, Triangle.main envLinkFails [⟨[.closed], 0⟩] = some (code, w) ∧
      (code = 1 ↔ (envLinkFails.loadOk = false ∨ envLinkFails.vs.ok = false
        ∨ envLinkFails.fs.ok = false ∨ envLinkFails.prog.ok = false)) ∧
      (code = 0 ↔ (envLinkFails.loadOk = true ∧ envLinkFails.vs.ok = true
        ∧ envLinkFails.fs.ok = true ∧ envLinkFails.prog.ok = true)) ∧
      (code = 0 → w.windowOpen = false) :=
  (exit_codes envLinkFails [⟨[.closed], 0⟩] (by decide) (by decide) (by decide) (by decide)).1

/-- C5 (what the code does): when the vertex shader compiles and the fragment
shader does not, `main` returns `1` while the vertex shader object, created
with handle `1`, has not been deleted; in the mirrored case the fragment
shader object `2` is left.  On the return after a failed link and on the
return after the frame loop no object is left, and nothing is deleted twice
on any of the four paths. -/
theorem shader_leak_on_early_return :
    (Triangle.main envFragmentFails []).map
        (fun r => (r.1, (objectsAfter r.2.calls).live, (objectsAfter r.2.calls).stale))
      = some (1, [.shader 1], []) ∧
    (Triangle.main envVertexFails []).map
        (fun r => (r.1, (objectsAfter r.2.calls).live, (objectsAfter r.2.calls).stale))
      = some (1, [.shader 2], []) ∧
    (Triangle.main envLinkFails []).map
        (fun r => (r.1, (objectsAfter r.2.calls).live, (objectsAfter r.2.calls).stale))
      = some (1, [], []) ∧
    (Triangle.main envOk [⟨[.resized 800 600], 1⟩, ⟨[.closed], 2⟩]).map
        (fun r => (r.1, (objectsAfter r.2.calls).live, (objectsAfter r.2.calls).stale))
      = some (0, [], []) := by
  decide

/-! ### The viewport -/

theorem viewportAfter_append (v : Option Viewport) (a b : List GLCall) :
    viewportAfter v (a ++ b) = viewportAfter (viewportAfter v a) b := by
  simp [viewportAfter, List.foldl_append]

theorem viewportsAtClear_append (v : Option Viewport) (a b : List GLCall) :
    viewportsAtClear v (a ++ b)
      = viewportsAtClear v a ++ viewportsAtClear (viewportAfter v a) b := by
  induction a generalizing v with
  | nil => simp [viewportsAtClear, viewportAfter]
  | cons c cs ih =>
    have h : viewportAfter v (c :: cs) = viewportAfter (viewportStep v c) cs := rfl
    rw [List.cons_append, viewportsAtClear, viewportsAtClear, ih, h, List.append_assoc]

theorem viewportsAtClear_resizeCalls (v : Option Viewport) (evs : List Event) :
    viewportsAtClear v (resizeCalls evs) = [] := by
  induction evs generalizing v with
  | nil => rfl
  | cons ev rest ih =>
    rw [resizeCalls_cons, viewportsAtClear_append, ih]
    cases ev <;> rfl

theorem viewportAfter_resizeCalls (v : Option Viewport) (evs : List Event) :
    viewportAfter v (resizeCalls evs)
      = match lastResized evs with
        | some size => some (viewportFor size)
        | none => v := by
  induction evs using List.reverseRecOn with
  | nil => rfl
  | append_singleton evs ev ih =>
    rw [resizeCalls_append, viewportAfter_append, ih]
    cases ev with
    | resized x y =>
      simp [lastResized, Event.getIfResized, resizeCalls, viewportAfter, viewportStep,
        viewportFor]
    | closed => simp [lastResized, Event.getIfResized, resizeCalls, viewportAfter]
    | keyPressed code => simp [lastResized, Event.getIfResized, resizeCalls, viewportAfter]
    | other k => simp [lastResized, Event.getIfResized, resizeCalls, viewportAfter]

theorem toGLsizei_small (u : Nat) (hu : u < 2 ^ 31) : toGLsizei u = (u : Int) := by
  have h1 : u % 2 ^ 32 = u := Nat.mod_eq_of_lt (by omega)
  unfold toGLsizei
  rw [h1, if_pos hu]

/-- C4 (amended): in an iteration of the frame loop of the triangle demo the
viewport in effect at the clear is the one requested for the size of the last
`Resized` event polled in that iteration, with both components converted to
the signed 32-bit `GLsizei`, and it is the viewport in effect before the
iteration when no `Resized` event is polled; the conversion leaves every
size below `2^31` as it is, so that a single `Resized` event with such a size
`(x, y)` gives exactly `(0, 0, x, y)` at the clear. -/
theorem viewport_at_clear (env : Env) (prog : Nat) (uTimeLoc : Int) (vao : Nat)
    (startTime : Int) (f : FrameInput) (w : World) :
    viewportsAtClear none (Triangle.frame env prog uTimeLoc vao startTime f w).calls
      = viewportsAtClear none w.calls
        ++ [match lastResized (polled env f.events w.windowOpen) with
            | some size => some (viewportFor size)
            | none => viewportAfter none w.calls] ∧
    (∀ x y : Nat, x < 2 ^ 31 → y < 2 ^ 31 → viewportFor (x, y) = (0, 0, (x : Int), (y : Int))) ∧
    (∀ (x y : Nat) (now : Int), w.windowOpen = true → x < 2 ^ 31 → y < 2 ^ 31 →
      viewportsAtClear none
          (Triangle.frame env prog uTimeLoc vao startTime ⟨[.resized x y], now⟩ w).calls
        = viewportsAtClear none w.calls ++ [some (0, 0, (x : Int), (y : Int))]) := by
  have key : ∀ g : FrameInput,
      viewportsAtClear none (Triangle.frame env prog uTimeLoc vao startTime g w).calls
      = viewportsAtClear none w.calls
        ++ [match lastResized (polled env g.events w.windowOpen) with
            | some size => some (viewportFor size)
            | none => viewportAfter none w.calls] := by
    intro g
    rw [Triangle.frame_calls, viewportsAtClear_append, viewportsAtClear_append,
      viewportsAtClear_resizeCalls, viewportAfter_append, viewportAfter_resizeCalls]
    simp [Triangle.draw, viewportsAtClear, GLCall.isClear, viewportStep]
  have small : ∀ x y : Nat, x < 2 ^ 31 → y < 2 ^ 31 →
      viewportFor (x, y) = (0, 0, (x : Int), (y : Int)) := by
    intro x y hx hy
    simp [viewportFor, toGLsizei_small x hx, toGLsizei_small y hy]
  refine ⟨key f, small, ?_⟩
  intro x y now hopen hx hy
  rw [key, hopen]
  simp [polled, lastResized, Event.getIfResized, small x y hx hy]

/-- A resize to 800 x 600. -/
theorem viewport_at_clear_witness :
    (800 : Nat) < 2 ^ 31 ∧ (600 : Nat) < 2 ^ 31 ∧
    viewportsAtClear none
        (Triangle.frame envOk 3 0 1 0 ⟨[.resized 800 600], 7⟩ World.start).calls
      = viewportsAtClear none World.start.calls ++ [some (0, 0, ((800 : Nat) : Int), ((600 : Nat) : Int))] :=
  ⟨by decide, by decide,
    (viewport_at_clear envOk 3 0 1 0 ⟨[], 0⟩ World.start).2.2 800 600 7 rfl
      (by decide) (by decide)⟩

/-- C4 (as stated, refuted): a single `Resized` event of size `(2^31, 600)`, both
unsigned 32-bit values, polled with the window open leaves the viewport
`(0, 0, -2^31, 600)` at the clear, not `(0, 0, 2^31, 600)`. -/
theorem viewport_wraps_counterexample :
    (2147483648 : Nat) < 2 ^ 32 ∧
    viewportsAtClear none
        (Triangle.frame envOk 3 0 1 0 ⟨[.resized 2147483648 600], 0⟩ World.start).calls
      = [some (0, 0, -2147483648, 600)] ∧
    viewportsAtClear none
        (Triangle.frame envOk 3 0 1 0 ⟨[.resized 2147483648 600], 0⟩ World.start).calls
      ≠ [some (0, 0, 2147483648, 600)] := by
  decide

/-! ### The order of the calls of the triangle demo -/

theorem loopCall_plain {prog : Nat} {uTimeLoc : Int} {vao : Nat} {c : GLCall}
    (h : loopCall prog uTimeLoc vao c) :
    c.deletes = none ∧ c.creates = none ∧ c.isGetUniformLocation = false ∧
      (c.isUniform = true → ∃ time, c = .uniform1f uTimeLoc time) ∧
      (c.isDraw = true → c = .drawArrays GL_TRIANGLES 0 3) := by
  rcases h with ⟨width, height, rfl⟩ | ⟨time, h⟩
  · simp [GLCall.deletes, GLCall.creates, GLCall.isGetUniformLocation, GLCall.isUniform,
      GLCall.isDraw]
  · simp only [Triangle.draw, List.mem_cons, List.mem_singleton, List.not_mem_nil,
      or_false] at h
    rcases h with rfl | rfl | rfl | rfl | rfl | rfl | rfl | rfl | rfl <;>
      simp [GLCall.deletes, GLCall.creates, GLCall.isGetUniformLocation, GLCall.isUniform,
        GLCall.isDraw]

theorem Triangle.main_link_failure (env : Env) (frames : List FrameInput)
    (hload : env.loadOk = true) (hvs : env.vs.ok = true) (hfs : env.fs.ok = true)
    (hprog : env.prog.ok = false) (hvsh : env.vs.handle ≠ 0) (hfsh : env.fs.handle ≠ 0) :
    ∃ w, Triangle.main env frames = some (1, w) ∧
      w.calls = Triangle.bootCalls
        ++ Triangle.compileCalls GL_VERTEX_SHADER Triangle.vsSrc env.vs.handle
        ++ Triangle.compileCalls GL_FRAGMENT_SHADER Triangle.fsSrc env.fs.handle
        ++ Triangle.linkFailCalls env.vs.handle env.fs.handle env.prog.handle
            env.prog.log.length
        ++ [.getUniformLocation 0 "uTime"]
        ++ [.deleteShader env.vs.handle, .deleteShader env.fs.handle] := by
  simp [Triangle.main, Triangle.compileShader, Triangle.linkProgram, hload, hvs, hfs, hprog,
    hvsh, hfsh, World.start, Triangle.bootCalls, Triangle.compileCalls, Triangle.linkFailCalls]

/-- C7: in the triangle demo, when OpenGL loads and both shaders compile (the
driver handing out non-zero handles): if the link succeeds and the frame
loop ends on the inputs, `main` returns `0` and its calls are `pre`, then
the two `glDeleteShader` calls for the vertex and the fragment shader, then
`post`, then the `glDeleteProgram` of the program, where `pre` finishes with
the calls of `linkProgram` and the uniform lookup and contains no deleting
call, no `glGen*` call and no call of a frame, and `post` contains the
creation of the vertex array and of the buffer and every present of the
frame loop but no `glDeleteShader` and no `glDeleteProgram`; if the link
fails, `linkProgram` returns `0`, having written `"Program link failed:\n"`,
the info log and a newline to `std::cerr` and deleted the program object with
its last call, and `main` returns `1` without issuing any call of a frame. -/
theorem shaders_deleted_after_link (env : Env) (frames : List FrameInput)
    (hload : env.loadOk = true) (hvs : env.vs.ok = true) (hfs : env.fs.ok = true)
    (hvsh : env.vs.handle ≠ 0) (hfsh : env.fs.handle ≠ 0) (hph : env.prog.handle ≠ 0) :
    (env.prog.ok = true → endsLoop frames = true →
      (∀ w0, (Triangle.linkProgram env.vs.handle env.fs.handle env.prog w0).1 = env.prog.handle ∧
        (Triangle.linkProgram env.vs.handle env.fs.handle env.prog w0).2.calls
          = w0.calls ++ Triangle.linkCalls env.vs.handle env.fs.handle env.prog.handle) ∧
      ∃ w pre0 pre post, Triangle.main env frames = some (0, w) ∧
        w.calls = pre ++ [.deleteShader env.vs.handle, .deleteShader env.fs.handle] ++ post
          ++ [.deleteProgram env.prog.handle] ∧
        pre = pre0 ++ Triangle.linkCalls env.vs.handle env.fs.handle env.prog.handle
          ++ [.getUniformLocation env.prog.handle "uTime"] ∧
        (∀ c ∈ pre, c.deletes = none ∧ c.isGen = false ∧ c.isFrame = false) ∧
        (∀ c ∈ post, (∀ sh, c ≠ .deleteShader sh) ∧ (∀ p, c ≠ .deleteProgram p)) ∧
        .genVertexArrays 1 env.vao ∈ post ∧ .genBuffers 1 env.vbo ∈ post ∧
        post.countP GLCall.isDisplay = iterations frames) ∧
    (env.prog.ok = false →
      (∀ w0, (Triangle.linkProgram env.vs.handle env.fs.handle env.prog w0).1 = 0 ∧
        (Triangle.linkProgram env.vs.handle env.fs.handle env.prog w0).2.cerr
          = w0.cerr ++ ("Program link failed:\n" ++ env.prog.log ++ "\n") ∧
        (Triangle.linkProgram env.vs.handle env.fs.handle env.prog w0).2.calls
          = w0.calls ++ Triangle.linkFailCalls env.vs.handle env.fs.handle env.prog.handle
              env.prog.log.length) ∧
      ∃ w, Triangle.main env frames = some (1, w) ∧ ∀ c ∈ w.calls, c.isFrame = false) := by
  constructor
  · intro hprog hend
    refine ⟨fun w0 => by simp [Triangle.linkProgram, hprog, Triangle.linkCalls], ?_⟩
    obtain ⟨w, added, hmain, -, hcalls, hloop, -, hdisp⟩ :=
      triangle_main_success env frames hload hvs hfs hprog hvsh hfsh hph hend
    refine ⟨w, Triangle.bootCalls
        ++ Triangle.compileCalls GL_VERTEX_SHADER Triangle.vsSrc env.vs.handle
        ++ Triangle.compileCalls GL_FRAGMENT_SHADER Triangle.fsSrc env.fs.handle, _,
      Triangle.geometryCalls env ++ added
        ++ [.deleteVertexArrays 1 env.vao, .deleteBuffers 1 env.vbo],
      hmain, ?_, rfl, ?_, ?_, ?_, ?_, ?_⟩
    · rw [hcalls]; simp [Triangle.cleanupCalls]
    · intro c hc
      simp only [Triangle.bootCalls, Triangle.compileCalls, Triangle.linkCalls,
        List.mem_append, List.mem_cons, List.mem_singleton, List.not_mem_nil, or_false] at hc
      rcases hc with ((((hc | hc) | hc) | hc) | hc)
      · rcases hc with rfl | rfl | rfl | rfl | rfl | rfl | rfl <;> exact ⟨rfl, rfl, rfl⟩
      · rcases hc with rfl | rfl | rfl | rfl <;> exact ⟨rfl, rfl, rfl⟩
      · rcases hc with rfl | rfl | rfl | rfl <;> exact ⟨rfl, rfl, rfl⟩
      · rcases hc with rfl | rfl | rfl | rfl | rfl <;> exact ⟨rfl, rfl, rfl⟩
      · subst hc; exact ⟨rfl, rfl, rfl⟩
    · intro c hc
      simp only [Triangle.geometryCalls, List.mem_append, List.mem_cons, List.mem_singleton,
        List.not_mem_nil, or_false] at hc
      rcases hc with ((hc | hc) | hc)
      · rcases hc with rfl | rfl | rfl | rfl | rfl | rfl | rfl | rfl | rfl | rfl | rfl | rfl <;>
          simp
      · have h := (loopCall_plain (hloop c hc)).1
        constructor
        · intro sh hsh; subst hsh; simp [GLCall.deletes] at h
        · intro p hp; subst hp; simp [GLCall.deletes] at h
      · rcases hc with rfl | rfl <;> simp
    · simp [Triangle.geometryCalls]
    · simp [Triangle.geometryCalls]
    · rw [List.countP_append, List.countP_append, hdisp]
      simp [Triangle.geometryCalls, GLCall.isDisplay,
        List.countP_cons]
  · intro hprog
    refine ⟨fun w0 => by simp [Triangle.linkProgram, hprog, Triangle.linkFailCalls], ?_⟩
    obtain ⟨w, hmain, hcalls⟩ :=
      Triangle.main_link_failure env frames hload hvs hfs hprog hvsh hfsh
    refine ⟨w, hmain, ?_⟩
    intro c hc
    rw [hcalls] at hc
    simp only [Triangle.bootCalls, Triangle.compileCalls, Triangle.linkFailCalls,
      List.mem_append, List.mem_cons, List.mem_singleton, List.not_mem_nil, or_false] at hc
    rcases hc with (((((hc | hc) | hc) | hc) | hc) | hc)
    · rcases hc with rfl | rfl | rfl | rfl | rfl | rfl | rfl <;> rfl
    · rcases hc with rfl | rfl | rfl | rfl <;> rfl
    · rcases hc with rfl | rfl | rfl | rfl <;> rfl
    · rcases hc with rfl | rfl | rfl | rfl | rfl | rfl | rfl | rfl <;> rfl
    · subst hc; rfl
    · rcases hc with rfl | rfl <;> rfl

/-- A run in which the link succeeds and one in which it fails. -/
theorem shaders_deleted_after_link_witness :
    (∃ w, Triangle.main envOk [⟨[.closed], 0⟩] = some (0, w)) ∧
    (∃ w, Triangle.main envLinkFails [] = some (1, w) ∧ ∀ c ∈ w.calls, c.isFrame = false) :=
  ⟨by
      obtain ⟨-, w, -, -, -, h, -⟩ :=
        (shaders_deleted_after_link envOk [⟨[.closed], 0⟩] rfl rfl rfl (by decide) (by decide)
          (by decide)).1 rfl (by decide)
      exact ⟨w, h⟩,
   ((shaders_deleted_after_link envLinkFails [] rfl rfl rfl (by decide) (by decide)
      (by decide)).2 rfl).2⟩

/-! ### What a run of the triangle demo passes to OpenGL -/

theorem resizeCalls_filterMap {α : Type} (g : GLCall → Option α)
    (hg : ∀ x y width height, g (.viewport x y width height) = none) (evs : List Event) :
    (resizeCalls evs).filterMap g = [] := by
  induction evs with
  | nil => rfl
  | cons ev rest ih =>
    rw [resizeCalls_cons, List.filterMap_append, ih]
    cases ev <;> simp [resizeCalls, Event.getIfResized, hg]

/-- What one run of the frame loop of the triangle demo adds to the uniform
updates, the draw calls, the attribute pointers and the buffer uploads. -/
theorem Triangle.whileOpen_reads (env : Env) (prog : Nat) (uTimeLoc : Int) (vao : Nat)
    (startTime : Int) (frames : List FrameInput) (w w2 : World) (n : Nat)
    (hrun : whileOpen (Triangle.frame env prog uTimeLoc vao startTime) frames w = some (w2, n)) :
    uniformUpdates w2.calls = uniformUpdates w.calls
      ++ (frames.take n).map
          (fun f => (uTimeLoc, durationFloatSeconds env.ticksPerSecond (f.now - startTime))) ∧
    drawRanges w2.calls = drawRanges w.calls ++ List.replicate n (GL_TRIANGLES, 0, 3) ∧
    attribPointers w2.calls = attribPointers w.calls ∧
    bufferUploads w2.calls = bufferUploads w.calls := by
  induction frames generalizing w w2 n with
  | nil =>
    unfold whileOpen at hrun
    split at hrun
    · cases hrun
    · cases hrun; simp
  | cons f fs ih =>
    unfold whileOpen at hrun
    split at hrun
    · cases hr : whileOpen (Triangle.frame env prog uTimeLoc vao startTime) fs
          (Triangle.frame env prog uTimeLoc vao startTime f w) with
      | none => rw [hr] at hrun; cases hrun
      | some r =>
        rw [hr] at hrun
        obtain ⟨w3, m⟩ := r
        simp only [Option.map_some', Option.some.injEq, Prod.mk.injEq] at hrun
        obtain ⟨h1, h2⟩ := hrun
        subst h1 h2
        obtain ⟨hu, hd, ha, hb⟩ := ih _ _ _ hr
        rw [hu, hd, ha, hb]
        have r1 := resizeCalls_filterMap GLCall.asUniform1f (fun _ _ _ _ => rfl)
          (polled env f.events w.windowOpen)
        have r2 := resizeCalls_filterMap GLCall.asDrawArrays (fun _ _ _ _ => rfl)
          (polled env f.events w.windowOpen)
        have r3 := resizeCalls_filterMap GLCall.asAttribPointer (fun _ _ _ _ => rfl)
          (polled env f.events w.windowOpen)
        have r4 := resizeCalls_filterMap GLCall.asBufferData (fun _ _ _ _ => rfl)
          (polled env f.events w.windowOpen)
        simp only [uniformUpdates, drawRanges, attribPointers, bufferUploads,
          Triangle.frame_calls, List.filterMap_append, r1, r2, r3, r4]
        simp [Triangle.draw, GLCall.asUniform1f, GLCall.asDrawArrays, GLCall.asAttribPointer,
          GLCall.asBufferData, List.replicate_succ]
    · cases hrun; simp

theorem triangle_main_reads (env : Env) (frames : List FrameInput)
    (hload : env.loadOk = true) (hvs : env.vs.ok = true) (hfs : env.fs.ok = true)
    (hprog : env.prog.ok = true) (hvsh : env.vs.handle ≠ 0) (hfsh : env.fs.handle ≠ 0)
    (hph : env.prog.handle ≠ 0) (hend : endsLoop frames = true) :
    ∃ w, Triangle.main env frames = some (0, w) ∧
      uniformUpdates w.calls = (frames.take (iterations frames)).map
        (fun f => (env.uTimeLoc,
          durationFloatSeconds env.ticksPerSecond (f.now - env.startTime))) ∧
      drawRanges w.calls = List.replicate (iterations frames) (GL_TRIANGLES, 0, 3) ∧
      attribPointers w.calls
        = [⟨0, 2, GL_FLOAT, GL_FALSE, 20, 0⟩, ⟨1, 3, GL_FLOAT, GL_FALSE, 20, 8⟩] ∧
      bufferUploads w.calls = [(GL_ARRAY_BUFFER, 60, Triangle.verts)] := by
  simp only [Triangle.main, Triangle.compileShader, Triangle.linkProgram, hload, hvs, hfs, hprog,
    hvsh, hfsh, hph, Bool.not_true, Bool.false_eq_true, if_false, Bool.or_self,
    decide_False]
  split
  · rename_i heq
    obtain ⟨w2, hr, -⟩ := triangle_whileOpen_result heq rfl hend
    cases hr
  · rename_i w2 n heq
    obtain ⟨w3, hr, -⟩ := triangle_whileOpen_result heq rfl hend
    cases hr
    obtain ⟨hu, hd, ha, hb⟩ := Triangle.whileOpen_reads _ _ _ _ _ _ _ _ _ heq
    have hsize : Triangle.sizeofVerts = 60 := rfl
    refine ⟨_, rfl, ?_, ?_, ?_, ?_⟩
    · simp only [uniformUpdates, World.gl_calls, List.filterMap_append] at hu ⊢
      rw [hu]
      simp [World.start, GLCall.asUniform1f]
    · simp only [drawRanges, World.gl_calls, List.filterMap_append] at hd ⊢
      rw [hd]
      simp [World.start, GLCall.asDrawArrays]
    · simp only [attribPointers, World.gl_calls, List.filterMap_append] at ha ⊢
      rw [ha]
      simp [World.start, GLCall.asAttribPointer, sizeofFloat]
    · simp only [bufferUploads, World.gl_calls, List.filterMap_append] at hb ⊢
      rw [hb]
      simp [World.start, GLCall.asBufferData, hsize]

/-- C10: a run of the triangle demo's `main` that reaches the frame loop uploads
one buffer, of 60 bytes holding the 15 floats of `verts` (3 rows of 5 floats
of 4 bytes), sets two attribute pointers, both with stride 20, the position
with 2 floats at offset 0 and the colour with 3 floats at offset 8, and
draws with `glDrawArrays(GL_TRIANGLES, 0, 3)` only; for the uploaded buffer,
the two pointers and every vertex `i` of every draw call the position bytes
are `[20 i, 20 i + 8)` and the colour bytes `[20 i + 8, 20 i + 20)`, both
inside the buffer, no byte belongs to both, and a byte belongs to one of them
exactly when it belongs to the five floats of row `i`. -/
theorem vertex_layout (env : Env) (frames : List FrameInput)
    (hload : env.loadOk = true) (hvs : env.vs.ok = true) (hfs : env.fs.ok = true)
    (hprog : env.prog.ok = true) (hvsh : env.vs.handle ≠ 0) (hfsh : env.fs.handle ≠ 0)
    (hph : env.prog.handle ≠ 0) (hend : endsLoop frames = true) :
    ∃ w, Triangle.main env frames = some (0, w) ∧
      bufferUploads w.calls = [(GL_ARRAY_BUFFER, 60, Triangle.verts)] ∧
      Triangle.verts.length = 15 ∧ 15 = 3 * 5 ∧ 15 * sizeofFloat = 60 ∧
      attribPointers w.calls
        = [⟨0, 2, GL_FLOAT, GL_FALSE, 20, 0⟩, ⟨1, 3, GL_FLOAT, GL_FALSE, 20, 8⟩] ∧
      drawRanges w.calls = List.replicate (iterations frames) (GL_TRIANGLES, 0, 3) ∧
      ∀ up ∈ bufferUploads w.calls, ∀ pos col, attribPointers w.calls = [pos, col] →
        ∀ d ∈ drawRanges w.calls, ∀ i : Nat, d.2.1 ≤ (i : Int) → (i : Int) < d.2.1 + d.2.2 →
          up.2.1 = up.2.2.length * sizeofFloat ∧
          pos.bytes i = (20 * i, 20 * i + 8) ∧
          col.bytes i = (20 * i + 8, 20 * i + 20) ∧
          (pos.bytes i).2 ≤ up.2.1 ∧ (col.bytes i).2 ≤ up.2.1 ∧
          (∀ b, ¬ (((pos.bytes i).1 ≤ b ∧ b < (pos.bytes i).2) ∧
            ((col.bytes i).1 ≤ b ∧ b < (col.bytes i).2))) ∧
          (∀ b, (((pos.bytes i).1 ≤ b ∧ b < (pos.bytes i).2) ∨
              ((col.bytes i).1 ≤ b ∧ b < (col.bytes i).2))
            ↔ (5 * i * sizeofFloat ≤ b ∧ b < (5 * i + 5) * sizeofFloat)) := by
  obtain ⟨w, hmain, -, hdraw, hattr, hbuf⟩ :=
    triangle_main_reads env frames hload hvs hfs hprog hvsh hfsh hph hend
  refine ⟨w, hmain, hbuf, rfl, rfl, rfl, hattr, hdraw, ?_⟩
  intro up hup pos col hpc d hd i hlo hhi
  rw [hbuf, List.mem_singleton] at hup
  rw [hattr] at hpc
  simp only [List.cons.injEq, and_true] at hpc
  obtain ⟨hpos, hcol⟩ := hpc
  rw [hdraw] at hd
  have hd2 := List.eq_of_mem_replicate hd
  subst hup hpos hcol hd2
  simp only at hlo hhi
  have hi3 : i < 3 := by omega
  simp only [AttribPointer.bytes, Triangle.verts, sizeofFloat, List.length_cons,
    List.length_nil]
  refine ⟨by norm_num, by congr 1 <;> omega, by congr 1 <;> omega, by omega, by omega, ?_, ?_⟩
  · intro b; omega
  · intro b; omega

/-- A run of one iteration. -/
theorem vertex_layout_witness :
    ∃ w, Triangle.main envOk [⟨[.closed], 0⟩] = some (0, w) ∧
      bufferUploads w.calls = [(GL_ARRAY_BUFFER, 60, Triangle.verts)] ∧
      attribPointers w.calls
        = [⟨0, 2, GL_FLOAT, GL_FALSE, 20, 0⟩, ⟨1, 3, GL_FLOAT, GL_FALSE, 20, 8⟩] ∧
      drawRanges w.calls = [(GL_TRIANGLES, 0, 3)] := by
  obtain ⟨w, hmain, hbuf, -, -, -, hattr, hdraw, -⟩ :=
    vertex_layout envOk [⟨[.closed], 0⟩] rfl rfl rfl rfl (by decide) (by decide) (by decide)
      (by decide)
  exact ⟨w, hmain, hbuf, hattr, hdraw⟩

end Engine
